import Mathlib

/-!
Verification development for the clinical decision support core
(`engine.py`, `enhanced_mappings.py`, `vital_signs.py`, `risk_scores.py`).

The Python code is shallowly embedded: Python `float` arithmetic is modelled
by exact rationals (`ℚ`), Python dictionaries by association lists in
insertion order, Python `None` by `Option`, and code that raises an
exception to its caller by `Option`/`Except` results.  `math.log` (a
transcendental float operation) is abstracted as a function parameter.
Python number-to-string formatting is abstracted by `toString`
(the exact rendering of interpolated numbers is irrelevant to every
property proved here).
-/

namespace CDSS

/-- Python `int(x)` for a rational: truncation toward zero. -/
def pyTrunc (q : ℚ) : ℤ := if q < 0 then -⌊-q⌋ else ⌊q⌋

/-- Python `round(x)` for a rational: round half to even (banker's rounding),
which is the semantics of Python 3 `round`. -/
def pyRound (q : ℚ) : ℤ :=
  let n := ⌊q⌋
  let f := q - n
  if f < 1/2 then n
  else if 1/2 < f then n + 1
  else if n % 2 = 0 then n else n + 1

/-- Python `round(x, k)` for a rational: round half to even at `k` decimal
places. -/
def pyRoundTo (k : ℕ) (q : ℚ) : ℚ := (pyRound (q * 10 ^ k) : ℚ) / 10 ^ k

/-- First value bound to `k` in an association list (Python `dict.get(k)`,
insertion-ordered with unique keys in all uses below). -/
def assocFind (l : List (String × α)) (k : String) : Option α :=
  (l.find? (fun p => p.1 = k)).map Prod.snd

/-- Python `d.get(k, default)` for a rational-valued dict. -/
def assocFindD (l : List (String × ℚ)) (k : String) (d : ℚ) : ℚ :=
  (assocFind l k).getD d

/-- `symptom_to_disease.get(symptom, {}).get(disease, 0)`. -/
def lookup2 (table : List (String × List (String × ℚ))) (symptom disease : String) : ℚ :=
  assocFindD ((assocFind table symptom).getD []) disease 0

/-- Whether the dict has the key (`k in d`). -/
def containsKey (l : List (String × α)) (k : String) : Bool :=
  l.any (fun p => p.1 = k)

/-- Multiply the value stored at key `k` by `f` (Python `d[k] *= f`; keys are
unique in all uses, so mapping every matching entry is the same operation). -/
def mulKey (l : List (String × ℚ)) (k : String) (f : ℚ) : List (String × ℚ) :=
  l.map (fun p => if p.1 = k then (p.1, p.2 * f) else p)

/-- Python dict-set `d[s] = True` on a set represented as an insertion-ordered
list of keys: a key already present keeps its position. -/
def addSym (l : List String) (s : String) : List String :=
  if s ∈ l then l else l ++ [s]

/-- Sum of the values of an association list (`sum(d.values())`). -/
def sumValues (l : List (String × ℚ)) : ℚ := (l.map Prod.snd).sum

/-- Characters counted as word characters by the regex `\b` boundary
(`[a-zA-Z0-9_]` on the lowercased clinical text handled here). -/
def isWordChar (c : Char) : Bool := c.isAlphanum || c = '_'

/-- Word-characterness of the character at index `i` (out of range counts as
a non-word character). -/
def wordCharAt (tl : List Char) (i : ℕ) : Bool :=
  match tl.get? i with
  | some c => isWordChar c
  | none => false

/-- The regex word boundary `\b` at position `i` (between indices `i-1` and
`i`). -/
def boundaryAt (tl : List Char) (i : ℕ) : Bool :=
  (if i = 0 then false else wordCharAt tl (i - 1)) != wordCharAt tl i

/-- `\b<literal v>\b` matches in `tl` at position `i`. -/
def wordMatchAt (tl v : List Char) (i : ℕ) : Bool :=
  decide ((tl.drop i).take v.length = v) && boundaryAt tl i && boundaryAt tl (i + v.length)

/-- Position of the first whole-word match of `v` in `tl`
(`re.search(r'\b' + re.escape(v) + r'\b', tl)`), if any. -/
def firstWordMatch (tl v : List Char) : Option ℕ :=
  (List.range (tl.length + 1)).find? (fun i => wordMatchAt tl v i)

/-- Strip leading and trailing whitespace (Python `str.strip()`). -/
def stripChars (l : List Char) : List Char :=
  ((l.dropWhile Char.isWhitespace).reverse.dropWhile Char.isWhitespace).reverse

/-- `text.lower().strip()` on the character list. -/
def lowerStrip (l : List Char) : List Char := stripChars (l.map Char.toLower)

/-- Helper for `pySplit`: accumulate the current (reversed) token. -/
def pySplitAux : List Char → List Char → List (List Char)
  | cur, [] => [cur.reverse]
  | cur, c :: cs =>
    if c.isWhitespace then cur.reverse :: pySplitAux [] cs
    else pySplitAux (c :: cur) cs

/-- Python `str.split()` with no argument: split on whitespace runs and drop
empty tokens. -/
def pySplit (l : List Char) : List (List Char) :=
  (pySplitAux [] l).filter (fun t => ¬t.isEmpty)

/-- Python substring containment `needle in hay`. -/
def isSubstr (needle hay : List Char) : Bool :=
  (List.range (hay.length + 1)).any (fun i => decide ((hay.drop i).take needle.length = needle))

/-- `needle in hay` on strings (lowercased inputs are supplied by callers,
as in the source). -/
def strContains (hay needle : String) : Bool := isSubstr needle.data hay.data

/-- Helper for `collapseWs`: the flag records whether the previous character
emitted was (the collapsed image of) whitespace. -/
def collapseWsAux : List Char → Bool → List Char
  | [], _ => []
  | c :: cs, prev =>
    if c.isWhitespace then
      (if prev then collapseWsAux cs true else ' ' :: collapseWsAux cs true)
    else c :: collapseWsAux cs false

/-- `re.sub(r'\s+', ' ', s)`: collapse every whitespace run to one space. -/
def collapseWs (l : List Char) : List Char := collapseWsAux l false

/-! ### `enhanced_mappings.py` -/

/-- `LOCATION_DISEASE_MAP` (enhanced_mappings.py). -/
def LOCATION_DISEASE_MAP : List (String × List String) := [
  ("right lower quadrant", ["Appendicitis", "Urinary tract infection", "Pyelonephritis"]),
  ("rlq", ["Appendicitis", "Urinary tract infection", "Pyelonephritis"]),
  ("mcburney", ["Appendicitis"]),
  ("right iliac fossa", ["Appendicitis"]),
  ("right upper quadrant", ["Cholecystitis", "Hepatitis B", "Hepatitis C", "Chronic cholestasis"]),
  ("ruq", ["Cholecystitis", "Hepatitis B", "Hepatitis C", "Chronic cholestasis"]),
  ("epigastric", ["GERD", "Peptic ulcer diseae", "Gastroenteritis", "Acute Pancreatitis"]),
  ("epigastrium", ["GERD", "Peptic ulcer diseae", "Gastroenteritis", "Acute Pancreatitis"]),
  ("left upper quadrant", ["Gastroenteritis", "Peptic ulcer diseae"]),
  ("luq", ["Gastroenteritis", "Peptic ulcer diseae"]),
  ("left lower quadrant", ["Diverticulitis", "Urinary tract infection"]),
  ("llq", ["Diverticulitis", "Urinary tract infection"]),
  ("periumbilical", ["Gastroenteritis", "Appendicitis", "Bowel Obstruction"]),
  ("around umbilicus", ["Gastroenteritis", "Appendicitis", "Bowel Obstruction"]),
  ("retrosternal", ["Heart attack", "GERD", "Aortic Dissection"]),
  ("substernal", ["Heart attack", "GERD", "Aortic Dissection"]),
  ("flank", ["Pyelonephritis", "Renal Failure", "Acute Kidney Injury"]),
  ("costovertebral angle", ["Pyelonephritis", "Renal Failure"])]

/-- One entry of `CRITICAL_PATTERNS` (enhanced_mappings.py). -/
structure ClinicalPattern where
  name : String
  symptoms : List String
  disease : String
  boost : ℚ
  keywords : List String
  description : String
deriving DecidableEq, Repr

/-- `CRITICAL_PATTERNS` (enhanced_mappings.py). -/
def CRITICAL_PATTERNS : List ClinicalPattern := [
  { name := "appendicitis_classic",
    symptoms := ["abdominal_pain_rlq", "vomiting", "loss_of_appetite"],
    disease := "Appendicitis", boost := 3,
    keywords := ["rlq", "right lower quadrant", "mcburney", "migrated", "periumbilical",
                 "rebound", "guarding", "right iliac fossa"],
    description := "Classic appendicitis presentation with RLQ pain" },
  { name := "appendicitis_migrating",
    symptoms := ["abdominal_pain", "migrating_pain"],
    disease := "Appendicitis", boost := 5/2,
    keywords := ["periumbilical", "moved to rlq", "migrated", "started around belly button"],
    description := "Appendicitis with characteristic pain migration" },
  { name := "meningitis_classic",
    symptoms := ["severe_headache", "high_fever", "stiff_neck"],
    disease := "Meningitis", boost := 3,
    keywords := ["photophobia", "nuchal", "severe headache", "worsening", "worst headache",
                 "confusion", "altered mental"],
    description := "Classic meningitis triad with nuchal rigidity" },
  { name := "mi_classic",
    symptoms := ["chest_pain", "sweating", "breathlessness"],
    disease := "Heart attack", boost := 3,
    keywords := ["radiating", "arm", "jaw", "sudden onset", "crushing", "pressure",
                 "left arm", "diaphoresis", "nausea"],
    description := "Classic MI presentation with radiation" }]

/-- A matched-pattern record produced by `enhance_symptom_extraction` (the
dict with keys `pattern`, `disease`, `boost`, `confidence`, `evidence`). -/
structure MatchedPattern where
  pattern : String
  disease : String
  boost : ℚ
  confidence : ℚ
  evidenceSymptoms : List String
  evidenceKeywords : List String
  evidenceDescription : String
deriving DecidableEq, Repr

/-- Text preprocessing in `enhance_symptom_extraction`: lowercase + strip,
replace `[,;:]` by a space, collapse whitespace runs. -/
def preprocessEnh (s : String) : List Char :=
  collapseWs ((lowerStrip s.data).map
    (fun c => if c = ',' ∨ c = ';' ∨ c = ':' then ' ' else c))

/-- Step 1 of `enhance_symptom_extraction` for one detected location: the
location-specific symptom additions (the `if/elif` chain on the location
string). -/
def locationSymptomAdd (enhanced : List String) (location : String) : List String :=
  if strContains location "rlq" || strContains location "right lower quadrant" then
    addSym enhanced "abdominal_pain_rlq"
  else if strContains location "ruq" || strContains location "right upper quadrant" then
    addSym enhanced "abdominal_pain_ruq"
  else if strContains location "llq" || strContains location "left lower quadrant" then
    addSym enhanced "abdominal_pain_llq"
  else if strContains location "epigastric" then
    addSym enhanced "epigastric_pain"
  else enhanced

/-- Step 1 of `enhance_symptom_extraction`: scan `LOCATION_DISEASE_MAP`,
collecting the location context and the location-specific symptoms. -/
def enhanceLocations (tl : List Char) (base : List String) :
    List String × List (String × List String) :=
  LOCATION_DISEASE_MAP.foldl
    (fun (acc : List String × List (String × List String)) entry =>
      if isSubstr entry.1.data tl then
        (locationSymptomAdd acc.1 entry.1, acc.2 ++ [entry])
      else acc)
    (base, [])

/-- Step 2 of `enhance_symptom_extraction` for one pattern: the matched-pattern
record, when both the symptom-count and keyword-count minimums are met. -/
def matchPattern (tl : List Char) (enhanced : List String) (p : ClinicalPattern) :
    Option MatchedPattern :=
  let symptomsPresent := p.symptoms.filter (fun s => s ∈ enhanced)
  let keywordsPresent := p.keywords.filter (fun k => isSubstr k.data tl)
  if 2 ≤ symptomsPresent.length ∧ 1 ≤ keywordsPresent.length then
    some { pattern := p.name, disease := p.disease, boost := p.boost,
           confidence := min 1
             ((symptomsPresent.length : ℚ) / p.symptoms.length * (1/2) +
              (keywordsPresent.length : ℚ) / p.keywords.length * (1/2)),
           evidenceSymptoms := symptomsPresent,
           evidenceKeywords := keywordsPresent,
           evidenceDescription := p.description }
  else none

/-- `enhance_symptom_extraction(text, base_symptoms)` (enhanced_mappings.py).
Invalid (empty) text returns the base symptoms with no patterns or
locations, as in the source; the `try/except` never fires because the pure
body cannot raise. -/
def enhanceSymptomExtraction (text : String) (base : List String) :
    List String × List MatchedPattern × List (String × List String) :=
  if text = "" then (base, [], [])
  else
    let tl := preprocessEnh text
    let (enhanced, locationContext) := enhanceLocations tl base
    let matchedPatterns := CRITICAL_PATTERNS.filterMap (matchPattern tl enhanced)
    (enhanced, matchedPatterns, locationContext)

/-- `apply_pattern_boosts(posteriors, matched_patterns, location_context)`
(enhanced_mappings.py).  The `except` branch returns `posteriors.copy()`;
it is unreachable in this pure embedding. -/
def applyPatternBoosts (posteriors : List (String × ℚ))
    (matchedPatterns : List MatchedPattern)
    (locationContext : List (String × List String)) : List (String × ℚ) :=
  if posteriors.isEmpty then []
  else
    let boosted := matchedPatterns.foldl
      (fun acc p =>
        if p.disease ≠ "" ∧ containsKey acc p.disease then
          mulKey acc p.disease (1 + (p.boost - 1) * p.confidence)
        else acc)
      posteriors
    locationContext.foldl
      (fun acc entry =>
        entry.2.foldl
          (fun a d => if containsKey a d then mulKey a d (3/2) else a)
          acc)
      boosted

/-! ### `engine.py`: symptom extraction -/

/-- The engine's `negation_words` list (engine.py, `extract_symptoms`).
Note the source list has nine entries, including the two-word markers
`negative for` and `ruled out`. -/
def negationWords : List String :=
  ["no", "not", "denies", "without", "absent",
   "negative", "negative for", "ruled out", "r/o"]

/-- `EngineConfig.negation_window_chars` default. -/
def negationWindowChars : ℕ := 60

/-- `EngineConfig.min_probability_threshold` default. -/
def minProbabilityThreshold : ℚ := 1/10000

/-- `EngineConfig.symptom_penalty_factor` default. -/
def symptomPenaltyFactor : ℚ := 3/4

/-- `EngineConfig.min_symptoms_for_confidence` default. -/
def minSymptomsForConfidence : ℕ := 3

/-- The negation-context window: the (up to) `negation_window_chars`
characters immediately preceding position `i`
(`text_lower[max(0, i - 60):i]`). -/
def negationWindow (tl : List Char) (i : ℕ) : List Char :=
  (tl.drop (i - negationWindowChars)).take (i - (i - negationWindowChars))

/-- The negation check of `extract_symptoms`: some word of `negation_words`
is a whole whitespace-delimited token of the window preceding the match. -/
def isNegatedAt (tl : List Char) (i : ℕ) : Bool :=
  negationWords.any (fun w => (pySplit (negationWindow tl i)).contains w.data)

/-- One iteration of the `extract_symptoms` loop over
`symptom_lookup.items()`. -/
def extractStep (tl : List Char) (detected : List String) (entry : String × String) :
    List String :=
  match firstWordMatch tl entry.1.data with
  | none => detected
  | some i => if isNegatedAt tl i then detected else addSym detected entry.2

/-- `DiagnosticEngine.extract_symptoms(text)` (engine.py).  `none` models the
`ValueError` raised for an empty text; otherwise the insertion-ordered set
of asserted canonical symptom codes (the dict only ever stores `True`). -/
def extractSymptoms (lookup : List (String × String)) (text : String) :
    Option (List String) :=
  if text = "" then none
  else
    let tl := lowerStrip text.data
    some (lookup.foldl (extractStep tl) [])

/-- The per-variant decision of `extract_symptoms`: the variant has a
whole-word (first) match in the text whose preceding 60-character window
holds no negation token. -/
def variantAsserts (tl v : List Char) : Bool :=
  match firstWordMatch tl v with
  | none => false
  | some i => !isNegatedAt tl i

/-! ### `engine.py`: posterior computation -/

/-- The trained disease model (§3 of the model JSON: `symptom_to_disease`,
`priors`, `symptom_mappings`).  The model file itself is external data, so
the engine is parametric in it. -/
structure DiseaseModel where
  symptomToDisease : List (String × List (String × ℚ))
  priors : List (String × ℚ)
  symptomMappings : List (String × List String)
deriving DecidableEq, Repr

/-- Step 1 of `compute_diagnosis`: the base Bayesian pass.  For each disease
(iterating the priors), start from the prior, multiply by
`P(symptom|disease)` when positive and by the `0.05` penalty otherwise,
keeping strictly positive results. -/
def basePosteriors (m : DiseaseModel) (symptoms : List String) : List (String × ℚ) :=
  m.priors.foldl
    (fun acc entry =>
      if entry.2 ≤ 0 then acc
      else
        let p := symptoms.foldl
          (fun pr s =>
            let ps := lookup2 m.symptomToDisease s entry.1
            if ps > 0 then pr * ps else pr * (1/20))
          entry.2
        if p > 0 then acc ++ [(entry.1, p)] else acc)
    []

/-- Step 2 of `compute_diagnosis`: pattern/location boosts, applied when
pattern matching is enabled (the default) and the text is non-empty. -/
def boostedPosteriors (m : DiseaseModel) (symptoms : List String) (text : String) :
    List (String × ℚ) :=
  let base := basePosteriors m symptoms
  if text ≠ "" then
    let r := enhanceSymptomExtraction text symptoms
    applyPatternBoosts base r.2.1 r.2.2
  else base

/-- Step 3 of `compute_diagnosis`: normalize so the values sum to `1`
(skipped when the total is not positive). -/
def normalizePosteriors (l : List (String × ℚ)) : List (String × ℚ) :=
  let total := sumValues l
  if 0 < total then l.map (fun p => (p.1, p.2 / total)) else l

/-- Step 4 of `compute_diagnosis`: drop diseases strictly below the
minimum-probability threshold. -/
def filterPosteriors (l : List (String × ℚ)) : List (String × ℚ) :=
  l.filter (fun p => minProbabilityThreshold ≤ p.2)

/-- `DiagnosticEngine.compute_diagnosis(symptoms, text)` (engine.py).
`none` models the `ValueError` raised for an empty symptom set. -/
def computeDiagnosis (m : DiseaseModel) (symptoms : List String) (text : String) :
    Option (List (String × ℚ)) :=
  if symptoms.isEmpty then none
  else some (filterPosteriors (normalizePosteriors (boostedPosteriors m symptoms text)))

/-! ### `engine.py`: confidence and urgency -/

/-- Descending stable sort of the posterior values
(`sorted(posteriors.values(), reverse=True)`). -/
def sortDesc (l : List ℚ) : List ℚ := l.insertionSort (fun a b => b ≤ a)

instance : IsTotal ℚ (fun a b : ℚ => b ≤ a) := ⟨fun a b => le_total b a⟩

instance : IsTrans ℚ (fun a b : ℚ => b ≤ a) := ⟨fun _ _ _ h1 h2 => le_trans h2 h1⟩

/-- Descending sort of `(disease, probability)` pairs by probability
(`sorted(posteriors.items(), key=lambda x: x[1], reverse=True)`). -/
def sortDescPairs (l : List (String × ℚ)) : List (String × ℚ) :=
  l.insertionSort (fun a b => b.2 ≤ a.2)

/-- `DiagnosticEngine.calculate_confidence(posteriors, n_symptoms)`
(engine.py): the `(round(confidence, 4), level)` pair. -/
def calculateConfidence (posteriors : List (String × ℚ)) (nSymptoms : ℕ) :
    ℚ × String :=
  if posteriors.isEmpty then (0, "VERY LOW")
  else
    let sortedProbs := sortDesc (posteriors.map Prod.snd)
    let topProb := sortedProbs.headD 0
    let probFactor := topProb * (2/5)
    let gapFactor :=
      match sortedProbs with
      | _ :: second :: _ => min ((topProb - second) / (3/10)) 1 * (3/10)
      | _ => (3/10)
    let symptomFactor := min ((nSymptoms : ℚ) / 5) 1 * (3/10)
    let base := min (probFactor + gapFactor + symptomFactor) 1
    let confidence :=
      if nSymptoms < minSymptomsForConfidence then base * symptomPenaltyFactor
      else base
    let level :=
      if confidence ≥ 3/4 then "HIGH"
      else if confidence ≥ 11/20 then "MODERATE"
      else if confidence ≥ 7/20 then "LOW"
      else "VERY LOW"
    (pyRoundTo 4 confidence, level)

/-- `self.critical_conditions` (engine.py, `__init__`). -/
def criticalConditions : List String :=
  ["Heart attack", "Stroke", "Sepsis",
   "Pulmonary Embolism", "Acute liver failure",
   "Paralysis (brain hemorrhage)", "Meningitis",
   "Aortic Dissection", "Anaphylaxis",
   "Diabetic Ketoacidosis", "Acute Pancreatitis",
   "Bowel Obstruction"]

/-- `self.urgent_conditions` (engine.py, `__init__`). -/
def urgentConditions : List String :=
  ["Pneumonia", "Appendicitis", "Tuberculosis",
   "Typhoid", "Malaria", "Dengue", "Cholecystitis",
   "Diverticulitis", "Pyelonephritis", "Cellulitis",
   "Deep Vein Thrombosis", "Renal Failure",
   "Acute Kidney Injury", "Endocarditis"]

/-- `DiagnosticEngine.assess_urgency(disease, confidence)` (engine.py):
the `(is_urgent, is_critical, urgency_score)` triple.  `int(...)` is
Python truncation (`pyTrunc`). -/
def assessUrgency (disease : String) (confidence : ℚ) : Bool × Bool × ℤ :=
  let isCritical : Bool := disease ∈ criticalConditions
  let isUrgent : Bool := disease ∈ urgentConditions || isCritical
  let urgencyScore :=
    if isCritical then min 10 (max 8 (pyTrunc (9 * confidence)))
    else if isUrgent then min 10 (max 6 (pyTrunc (7 * confidence)))
    else min 10 (pyTrunc (3 * confidence))
  (isUrgent, isCritical, urgencyScore)

/-! ### `engine.py`: diagnosis assembly -/

/-- Display name of a symptom (`symptom_mappings.get(symptom, [symptom])[0]`
when the mapping is a list; an empty alias list, which would raise an
`IndexError` caught by the outer handler, is mapped to the code itself). -/
def cleanSymptomName (m : DiseaseModel) (symptom : String) : String :=
  match assocFind m.symptomMappings symptom with
  | some (v :: _) => v
  | some [] => symptom
  | none => symptom

/-- `DiagnosticEngine.get_supporting_symptoms(disease, symptoms)`
(engine.py): `(display name, P(symptom|disease))` pairs, sorted by
descending probability. -/
def getSupportingSymptoms (m : DiseaseModel) (disease : String)
    (symptoms : List String) : List (String × ℚ) :=
  sortDescPairs (symptoms.foldl
    (fun acc s =>
      let p := lookup2 m.symptomToDisease s disease
      if p > 0 then acc ++ [(cleanSymptomName m s, p)] else acc)
    [])

/-- `emergency_protocols` (engine.py, `generate_recommendations`). -/
def emergencyProtocols : List (String × String) := [
  ("Heart attack", "⚠️ STAT: ECG, Troponin I/T, CK-MB - Activate cardiac catheterization lab"),
  ("Stroke", "⚠️ STAT: CT head, neurological assessment - Activate stroke team (time window critical)"),
  ("Sepsis", "⚠️ STAT: Blood cultures x2, lactate, CBC, BMP - Start broad spectrum antibiotics within 1 hour"),
  ("Meningitis", "⚠️ STAT: Lumbar puncture, blood cultures, CT head if indicated - Start empiric antibiotics immediately"),
  ("Pulmonary Embolism", "⚠️ STAT: CT pulmonary angiography, D-dimer, ABG - Consider thrombolytics"),
  ("Anaphylaxis", "⚠️ STAT: IM Epinephrine 0.3mg, establish IV access, continuous monitoring"),
  ("Aortic Dissection", "⚠️ STAT: CT angiography, cardiothoracic surgery consult - BP control critical"),
  ("Diabetic Ketoacidosis", "⚠️ STAT: BMP, VBG, beta-hydroxybutyrate - Start insulin drip and IVF"),
  ("Acute Pancreatitis", "⚠️ STAT: Lipase, LFTs, imaging - Aggressive IVF resuscitation")]

/-- `urgent_workup` (engine.py, `generate_recommendations`). -/
def urgentWorkup : List (String × String) := [
  ("Pneumonia", "📋 Order: Chest X-ray, CBC with differential, sputum culture, consider blood cultures"),
  ("Appendicitis", "📋 Surgical consultation stat, CBC with differential, CT abdomen/pelvis with contrast"),
  ("Cholecystitis", "📋 RUQ ultrasound, CBC, LFTs, lipase - Surgical consultation"),
  ("Pyelonephritis", "📋 Urinalysis with culture, CBC, BMP, renal ultrasound - Start empiric antibiotics"),
  ("Deep Vein Thrombosis", "📋 Venous duplex ultrasound, D-dimer, Wells score - Consider anticoagulation"),
  ("Cellulitis", "📋 Blood cultures if systemic symptoms, consider imaging - Start antibiotics")]

/-- `DiagnosticEngine.generate_recommendations` (engine.py). -/
def generateRecommendations (topDisease : String) (confidence : ℚ)
    (nSymptoms : ℕ) (isUrgent isCritical : Bool) : List String :=
  (if isCritical then
    ["🚨 CRITICAL: " ++ topDisease ++ " - IMMEDIATE emergency evaluation required"] ++
    (match assocFind emergencyProtocols topDisease with
     | some protocol => [protocol]
     | none => ["⚠️ Call emergency services immediately - initiate emergency protocols"])
   else if isUrgent then
    ["⚠️ URGENT: " ++ topDisease ++ " requires prompt evaluation within 24 hours"] ++
    (match assocFind urgentWorkup topDisease with
     | some workup => [workup]
     | none => [])
   else []) ++
  (if confidence < 3/5 then
    ["⚠️ Moderate confidence - comprehensive diagnostic workup strongly recommended",
     "📋 Consider specialist consultation for definitive diagnosis"]
   else []) ++
  (if nSymptoms < 3 then
    ["ℹ️ Limited symptom data - detailed history and physical examination essential",
     "📋 Consider systematic review of systems to identify additional symptoms"]
   else []) ++
  ["✓ Clinical correlation required - use professional medical judgment",
   "📋 Order confirmatory tests based on differential diagnosis and clinical context",
   "📚 Review evidence-based guidelines for current management protocols"]

/-- One entry of the assembled differential (the per-rank dict in
`diagnose`, step 6). -/
structure DiffItem where
  rank : ℕ
  disease : String
  probability : ℚ
  confidence : String
  supportingSymptoms : List String
  symptomMatchScores : List (String × ℚ)
deriving DecidableEq, Repr

/-- Rendering of an interpolated Python number inside a message string.
Only used inside strings no theorem here inspects. -/
def ratStr (q : ℚ) : String := toString q

/-- `DiagnosticEngine.generate_warnings(differential, confidence)`
(engine.py).  As in the source, `item['probability']` is the rounded
probability stored in the differential. -/
def generateWarnings (differential : List DiffItem) (confidence : ℚ) : List String :=
  ((differential.take 5).enum.filterMap
    (fun ip =>
      if ip.2.disease ∈ criticalConditions ∧ ip.2.probability > 3/100 then
        some ("⚠️ " ++ ip.2.disease ++ " at " ++ ratStr ip.2.probability ++
              " (Rank #" ++ toString (ip.1 + 1) ++
              ") - MUST be ruled out with appropriate testing")
      else none)) ++
  (if confidence < 1/2 then
    ["⚠️ Low diagnostic confidence - specialist consultation strongly recommended",
     "📋 Consider additional testing to narrow differential diagnosis"]
   else []) ++
  (let highProbCount := (differential.filter (fun item => item.probability > 3/20)).length
   if 3 ≤ highProbCount then
     ["⚠️ Multiple possible diagnoses (" ++ toString highProbCount ++
      ") with similar probabilities - comprehensive evaluation needed"]
   else []) ++
  (match differential with
   | a :: b :: _ =>
     if |a.probability - b.probability| < 1/20 then
       ["⚠️ Top diagnoses very close in probability - additional clinical data needed for differentiation"]
     else []
   | _ => [])

/-- `pattern_details` entry of `debug_info`. -/
structure PatternDetail where
  pattern : String
  disease : String
  confidence : ℚ
deriving DecidableEq, Repr

/-- `debug_info` of a successful diagnosis. -/
structure DebugInfo where
  patternsMatched : ℕ
  patternDetails : List PatternDetail
  locationsDetected : List String
  enhancedMappingsUsed : Bool
deriving DecidableEq, Repr

/-- `DiagnosticResult` (engine.py).  `query` is `Option String` because the
Python field holds the raw argument, which may be `None`; `timestamp` and
`processing_time_ms` receive the wall-clock readings taken during the
call. -/
structure DiagnosticResult where
  success : Bool
  query : Option String
  symptomsDetected : ℕ
  symptomsList : List String
  confidence : ℚ
  confidenceLevel : String
  differentialDiagnosis : List DiffItem
  topDiagnosis : String
  topProbability : ℚ
  recommendations : List String
  isUrgent : Bool
  isCritical : Bool
  urgencyScore : ℤ
  warnings : List String
  timestamp : String
  processingTimeMs : ℚ
  error : Option String
  debugInfo : Option DebugInfo
deriving DecidableEq, Repr

/-- A `DiagnosticResult` with every dataclass default (timestamp filled from
the construction-time clock reading `now`). -/
def defaultResult (now : String) : DiagnosticResult :=
  { success := false, query := none, symptomsDetected := 0, symptomsList := [],
    confidence := 0, confidenceLevel := "VERY LOW", differentialDiagnosis := [],
    topDiagnosis := "", topProbability := 0, recommendations := [],
    isUrgent := false, isCritical := false, urgencyScore := 0, warnings := [],
    timestamp := now, processingTimeMs := 0, error := none, debugInfo := none }

/-- Step 6 of `diagnose`: the ranked differential. -/
def buildDifferential (m : DiseaseModel) (sortedDiseases : List (String × ℚ))
    (symptoms : List String) : List DiffItem :=
  sortedDiseases.enum.map (fun ip =>
    let supporting := getSupportingSymptoms m ip.2.1 symptoms
    { rank := ip.1 + 1,
      disease := ip.2.1,
      probability := pyRoundTo 4 ip.2.2,
      confidence :=
        if ip.2.2 ≥ (1/2 : ℚ) then "HIGH"
        else if ip.2.2 ≥ (1/5 : ℚ) then "MODERATE"
        else "LOW",
      supportingSymptoms := (supporting.take 5).map Prod.fst,
      symptomMatchScores := (supporting.take 3).map (fun sp => (sp.1, pyRoundTo 3 sp.2)) })

/-- `DiagnosticEngine.diagnose(query, return_full)` (engine.py).

The engine's symptom lookup and model are parameters (the model file is
external data).  `query = none` models a non-string argument.  The two
wall-clock readings the source takes (`datetime.utcnow()` at construction
of the returned result and the measured elapsed milliseconds) are explicit
inputs `now` and `elapsedMs`.  Every exception path of the source
(`ValueError` from validation or from the empty inputs of the inner
stages) is caught by the source's handlers and becomes a failure result,
so this embedding is a total function into `DiagnosticResult`. -/
def diagnose (m : DiseaseModel) (lookup : List (String × String))
    (query : Option String) (returnFull : Bool)
    (now : String) (elapsedMs : ℚ) : DiagnosticResult :=
  match query with
  | none =>
    { (defaultResult now) with
      query := none,
      error := some "Query must be a non-empty string" }
  | some s =>
    if s = "" then
      { (defaultResult now) with
        query := some s,
        error := some "Query must be a non-empty string" }
    else
      match extractSymptoms lookup s with
      | none =>
        { (defaultResult now) with
          query := some s,
          error := some "Text input must be a non-empty string" }
      | some baseSymptoms =>
        let enh := enhanceSymptomExtraction s baseSymptoms
        let symptoms := enh.1
        let matchedPatterns := enh.2.1
        let locationContext := enh.2.2
        if symptoms.isEmpty then
          { (defaultResult now) with
            query := some s,
            error := some "No symptoms detected in query",
            recommendations :=
              ["Include specific symptoms: fever, cough, chest pain, headache, etc.",
               "Use medical terminology or common clinical descriptions",
               "Example: \"Patient presents with chest pain, sweating, and shortness of breath\""] }
        else
          match computeDiagnosis m symptoms s with
          | none =>
            { (defaultResult now) with
              query := some s,
              error := some "Symptoms must be a non-empty dictionary" }
          | some posteriors =>
            if posteriors.isEmpty then
              { (defaultResult now) with
                query := some s,
                symptomsDetected := symptoms.length,
                symptomsList := symptoms,
                error := some "Unable to generate diagnosis from detected symptoms" }
            else
              let nSymptoms := symptoms.length
              let confLevel := calculateConfidence posteriors nSymptoms
              let sortedAll := sortDescPairs posteriors
              let sortedDiseases := if returnFull then sortedAll else sortedAll.take 10
              let top := sortedDiseases.headD ("", 0)
              let urgency := assessUrgency top.1 confLevel.1
              let differential := buildDifferential m sortedDiseases symptoms
              let recommendations := generateRecommendations top.1 confLevel.1
                nSymptoms urgency.1 urgency.2.1
              let warnings := generateWarnings differential confLevel.1
              let debugInfo :=
                if ¬matchedPatterns.isEmpty ∨ ¬locationContext.isEmpty then
                  some { patternsMatched := matchedPatterns.length,
                         patternDetails := matchedPatterns.map (fun p =>
                           { pattern := p.pattern, disease := p.disease,
                             confidence := pyRoundTo 3 p.confidence }),
                         locationsDetected := locationContext.map Prod.fst,
                         enhancedMappingsUsed := true }
                else none
              { success := true,
                query := some s,
                symptomsDetected := nSymptoms,
                symptomsList := symptoms,
                confidence := confLevel.1,
                confidenceLevel := confLevel.2,
                differentialDiagnosis := differential,
                topDiagnosis := top.1,
                topProbability := pyRoundTo 4 top.2,
                recommendations := recommendations,
                isUrgent := urgency.1,
                isCritical := urgency.2.1,
                urgencyScore := urgency.2.2,
                warnings := warnings,
                timestamp := now,
                processingTimeMs := pyRoundTo 2 elapsedMs,
                error := none,
                debugInfo := debugInfo }

/-- Erase the two wall-clock-dependent fields of a `DiagnosticResult`. -/
def stripTime (r : DiagnosticResult) : DiagnosticResult :=
  { r with timestamp := "", processingTimeMs := 0 }

/-! ### `vital_signs.py` -/

/-- `VitalSignStatus` (vital_signs.py). -/
inductive VitalSignStatus
  | normal
  | borderline
  | abnormal
  | critical
deriving DecidableEq, Repr

/-- `AlertLevel` (vital_signs.py). -/
inductive AlertLevel
  | info
  | warning
  | urgent
  | critical
  | emergency
deriving DecidableEq, Repr

/-- One row of `VITAL_RANGES`: `low`/`high` are always present in the table;
`low_critical`/`high_critical` may be `None`. -/
structure VRange where
  lowCritical : Option ℚ
  low : ℚ
  high : ℚ
  highCritical : Option ℚ
deriving DecidableEq, Repr

/-- `VITAL_RANGES` (vital_signs.py). -/
def VITAL_RANGES : List (String × List (String × VRange)) := [
  ("temperature_c", [
    ("adult", { lowCritical := some 35, low := 361/10, high := 378/10, highCritical := some 40 }),
    ("child", { lowCritical := some (355/10), low := 365/10, high := 375/10, highCritical := some (395/10) }),
    ("infant", { lowCritical := some 36, low := 365/10, high := 375/10, highCritical := some (385/10) })]),
  ("heart_rate_bpm", [
    ("adult", { lowCritical := some 40, low := 60, high := 100, highCritical := some 140 }),
    ("elderly", { lowCritical := some 40, low := 50, high := 100, highCritical := some 120 }),
    ("child", { lowCritical := some 50, low := 70, high := 120, highCritical := some 160 }),
    ("infant", { lowCritical := some 80, low := 100, high := 160, highCritical := some 200 })]),
  ("respiratory_rate_bpm", [
    ("adult", { lowCritical := some 8, low := 12, high := 20, highCritical := some 30 }),
    ("elderly", { lowCritical := some 8, low := 12, high := 20, highCritical := some 28 }),
    ("child", { lowCritical := some 12, low := 15, high := 30, highCritical := some 40 }),
    ("infant", { lowCritical := some 20, low := 30, high := 50, highCritical := some 60 })]),
  ("systolic_bp_mmhg", [
    ("adult", { lowCritical := some 70, low := 90, high := 140, highCritical := some 180 }),
    ("elderly", { lowCritical := some 80, low := 100, high := 150, highCritical := some 180 }),
    ("child", { lowCritical := some 60, low := 80, high := 120, highCritical := some 140 })]),
  ("diastolic_bp_mmhg", [
    ("adult", { lowCritical := some 40, low := 60, high := 90, highCritical := some 120 }),
    ("elderly", { lowCritical := some 50, low := 60, high := 90, highCritical := some 110 }),
    ("child", { lowCritical := some 35, low := 50, high := 80, highCritical := some 100 })]),
  ("spo2_percent", [
    ("all", { lowCritical := some 85, low := 92, high := 100, highCritical := none })]),
  ("gcs_score", [
    ("all", { lowCritical := some 8, low := 13, high := 15, highCritical := none })])]

/-- `VitalSigns` (vital_signs.py), numeric fields as exact rationals. -/
structure VitalSigns where
  temperature : Option ℚ
  heartRate : Option ℚ
  respiratoryRate : Option ℚ
  systolicBp : Option ℚ
  diastolicBp : Option ℚ
  spo2 : Option ℚ
  gcsScore : Option ℚ
  painScore : Option ℚ
  bloodGlucose : Option ℚ
  ageYears : Option ℤ
  weightKg : Option ℚ
  heightCm : Option ℚ
  timestamp : String
  measuredBy : Option String
  location : Option String
deriving DecidableEq, Repr

/-- `VitalSigns.is_complete` (vital_signs.py). -/
def vitalsIsComplete (v : VitalSigns) : Bool :=
  v.temperature.isSome && v.heartRate.isSome && v.respiratoryRate.isSome &&
  v.systolicBp.isSome && v.spo2.isSome

/-- `RedFlag` (vital_signs.py). -/
structure RedFlag where
  level : AlertLevel
  title : String
  message : String
  condition : String
  vitalSignsInvolved : List String
  recommendedActions : List String
  timeCritical : Bool
  escalationRequired : Bool
  timestamp : String
deriving DecidableEq, Repr

/-- `VitalSignsAnalysis` (vital_signs.py). -/
structure VitalSignsAnalysis where
  vitals : VitalSigns
  statuses : List (String × VitalSignStatus)
  redFlags : List RedFlag
  sirsCriteriaMet : ℕ
  sirsPositive : Bool
  newsScore : ℕ
  severity : String
  recommendations : List String
deriving DecidableEq, Repr

/-- Python truthiness of an optional number (`None` and `0` are falsy). -/
def truthyNum (o : Option ℚ) : Bool :=
  match o with
  | none => false
  | some x => x ≠ 0

/-- `VitalSignsAnalyzer._get_age_group(age_years)` (vital_signs.py). -/
def getAgeGroup (ageYears : Option ℤ) : String :=
  match ageYears with
  | none => "adult"
  | some a =>
    if a < 1 then "infant"
    else if a < 12 then "child"
    else if 65 ≤ a then "elderly"
    else "adult"

/-- `ranges.get(age_group) or ranges.get('all')` for a vital name. -/
def rangeFor (vitalName ageGroup : String) : Option VRange :=
  match assocFind VITAL_RANGES vitalName with
  | none => none
  | some groups => (assocFind groups ageGroup).orElse (fun _ => assocFind groups "all")

/-- `VitalSignsAnalyzer._assess_vital_sign(value, vital_name, age_group)`
(vital_signs.py).  The critical bounds are guarded by Python truthiness of
the stored threshold and use strict `<`/`>` comparisons. -/
def assessVitalSign (value : Option ℚ) (vitalName ageGroup : String) : VitalSignStatus :=
  match value with
  | none => .normal
  | some v =>
    match rangeFor vitalName ageGroup with
    | none => .normal
    | some rd =>
      if truthyNum rd.lowCritical ∧ v < rd.lowCritical.getD 0 then .critical
      else if truthyNum rd.highCritical ∧ v > rd.highCritical.getD 0 then .critical
      else if v < rd.low then .abnormal
      else if v > rd.high then .abnormal
      else
        let lowMargin := if rd.low > 0 then rd.low * (11/10) else rd.low + |rd.low * (1/10)|
        let highMargin := if rd.high > 0 then rd.high * (9/10) else rd.high - |rd.high * (1/10)|
        if v < lowMargin ∨ v > highMargin then .borderline
        else .normal

/-- `vitals.diastolic_bp_mmhg or '?'` in the shock-alert message. -/
def diaOrQuestion (o : Option ℚ) : String :=
  if truthyNum o then ratStr (o.getD 0) else "?"

/-- `VitalSignsAnalyzer._detect_red_flags(vitals, statuses)`
(vital_signs.py); `statuses` is accepted and unused, as in the source.
Each flag's timestamp is the construction-time clock reading `now`. -/
def detectRedFlags (v : VitalSigns) (_statuses : List (String × VitalSignStatus))
    (now : String) : List RedFlag :=
  (if truthyNum v.temperature ∧ v.temperature.getD 0 ≥ 40 then
    [{ level := .emergency, title := "CRITICAL HYPERTHERMIA",
       message := "Temperature " ++ ratStr (v.temperature.getD 0) ++ "°C - Immediate cooling measures required",
       condition := "Hyperthermia", vitalSignsInvolved := ["temperature"],
       recommendedActions :=
         ["Immediate cooling measures (ice packs, cooling blanket)",
          "Check for heat stroke, infection, drug reaction",
          "Monitor for seizures",
          "Consider ICU transfer"],
       timeCritical := true, escalationRequired := true, timestamp := now }]
   else []) ++
  (if truthyNum v.temperature ∧ v.temperature.getD 0 ≤ 35 then
    [{ level := .emergency, title := "CRITICAL HYPOTHERMIA",
       message := "Temperature " ++ ratStr (v.temperature.getD 0) ++ "°C - Warming required",
       condition := "Hypothermia", vitalSignsInvolved := ["temperature"],
       recommendedActions :=
         ["Active warming measures",
          "Warmed IV fluids",
          "Cardiac monitoring (risk of arrhythmia)",
          "Consider ICU"],
       timeCritical := true, escalationRequired := true, timestamp := now }]
   else []) ++
  (if truthyNum v.heartRate ∧ v.heartRate.getD 0 ≤ 40 then
    [{ level := .emergency, title := "SEVERE BRADYCARDIA",
       message := "Heart rate " ++ ratStr (v.heartRate.getD 0) ++ " bpm - Risk of cardiac arrest",
       condition := "Bradycardia", vitalSignsInvolved := ["heart_rate"],
       recommendedActions :=
         ["Continuous cardiac monitoring",
          "12-lead ECG immediately",
          "Check medications (beta-blockers, etc.)",
          "Prepare atropine/pacing",
          "ACLS team notification"],
       timeCritical := true, escalationRequired := true, timestamp := now }]
   else []) ++
  (if truthyNum v.heartRate ∧ v.heartRate.getD 0 ≥ 140 then
    [{ level := .critical, title := "SEVERE TACHYCARDIA",
       message := "Heart rate " ++ ratStr (v.heartRate.getD 0) ++ " bpm - Assess for shock/arrhythmia",
       condition := "Tachycardia", vitalSignsInvolved := ["heart_rate"],
       recommendedActions :=
         ["12-lead ECG",
          "Assess for shock (septic, hypovolemic, cardiogenic)",
          "Check for arrhythmia (SVT, AF, VT)",
          "Fluid status assessment",
          "Consider cardiology consult"],
       timeCritical := true, escalationRequired := true, timestamp := now }]
   else []) ++
  (if truthyNum v.systolicBp ∧ v.systolicBp.getD 0 ≤ 70 then
    [{ level := .emergency, title := "SEVERE HYPOTENSION / SHOCK",
       message := "BP " ++ ratStr (v.systolicBp.getD 0) ++ "/" ++ diaOrQuestion v.diastolicBp ++ " - SHOCK PROTOCOL",
       condition := "Hypotensive Shock", vitalSignsInvolved := ["blood_pressure"],
       recommendedActions :=
         ["Initiate shock protocol immediately",
          "Fluid resuscitation (consider pressors)",
          "Identify shock type (septic/cardiogenic/hypovolemic)",
          "Blood cultures before antibiotics",
          "ICU notification",
          "Activate rapid response team"],
       timeCritical := true, escalationRequired := true, timestamp := now }]
   else []) ++
  (if truthyNum v.systolicBp ∧ v.systolicBp.getD 0 ≥ 180 ∧
      truthyNum v.diastolicBp ∧ v.diastolicBp.getD 0 ≥ 120 then
    [{ level := .emergency, title := "HYPERTENSIVE EMERGENCY",
       message := "BP " ++ ratStr (v.systolicBp.getD 0) ++ "/" ++ ratStr (v.diastolicBp.getD 0) ++ " - Risk of end-organ damage",
       condition := "Hypertensive Emergency", vitalSignsInvolved := ["blood_pressure"],
       recommendedActions :=
         ["Assess for end-organ damage (stroke, MI, renal failure)",
          "Continuous BP monitoring",
          "IV antihypertensives (nicardipine, labetalol)",
          "Neuro exam, cardiac markers, renal function",
          "ICU admission likely required"],
       timeCritical := true, escalationRequired := true, timestamp := now }]
   else []) ++
  (if truthyNum v.spo2 ∧ v.spo2.getD 0 ≤ 85 then
    [{ level := .emergency, title := "CRITICAL HYPOXEMIA",
       message := "SpO2 " ++ ratStr (v.spo2.getD 0) ++ "% - Immediate oxygen/airway management",
       condition := "Severe Hypoxemia", vitalSignsInvolved := ["spo2"],
       recommendedActions :=
         ["High-flow oxygen immediately (non-rebreather mask)",
          "Assess airway patency",
          "Consider intubation if worsening",
          "Chest X-ray STAT",
          "ABG analysis",
          "Respiratory therapy consult"],
       timeCritical := true, escalationRequired := true, timestamp := now }]
   else []) ++
  (if truthyNum v.respiratoryRate then
    (if v.respiratoryRate.getD 0 ≤ 8 then
      [{ level := .emergency, title := "SEVERE BRADYPNEA",
         message := "Respiratory rate " ++ ratStr (v.respiratoryRate.getD 0) ++ " - Risk of respiratory arrest",
         condition := "Bradypnea", vitalSignsInvolved := ["respiratory_rate"],
         recommendedActions :=
           ["Assess airway immediately",
            "Check for narcotic overdose (naloxone if suspected)",
            "Prepare for airway management",
            "Consider ICU/intubation",
            "Continuous monitoring"],
         timeCritical := true, escalationRequired := true, timestamp := now }]
     else if v.respiratoryRate.getD 0 ≥ 30 then
      [{ level := .critical, title := "SEVERE TACHYPNEA",
         message := "Respiratory rate " ++ ratStr (v.respiratoryRate.getD 0) ++ " - Respiratory distress",
         condition := "Tachypnea", vitalSignsInvolved := ["respiratory_rate"],
         recommendedActions :=
           ["Assess work of breathing",
            "Oxygen supplementation",
            "Check for pneumonia, PE, pulmonary edema",
            "Consider CPAP/BiPAP",
            "Respiratory therapy consult"],
         timeCritical := true, escalationRequired := false, timestamp := now }]
     else [])
   else []) ++
  (if truthyNum v.gcsScore ∧ v.gcsScore.getD 0 ≤ 8 then
    [{ level := .emergency, title := "SEVERELY ALTERED MENTAL STATUS",
       message := "GCS " ++ ratStr (v.gcsScore.getD 0) ++ " - Consider airway protection",
       condition := "Altered Mental Status", vitalSignsInvolved := ["gcs"],
       recommendedActions :=
         ["Protect airway (GCS ≤8 = intubation threshold)",
          "CT head STAT",
          "Check glucose immediately",
          "Toxicology screen",
          "Neurology consult",
          "ICU admission"],
       timeCritical := true, escalationRequired := true, timestamp := now }]
   else []) ++
  (if truthyNum v.bloodGlucose ∧ v.bloodGlucose.getD 0 ≥ 400 then
    [{ level := .critical, title := "SEVERE HYPERGLYCEMIA",
       message := "Blood glucose " ++ ratStr (v.bloodGlucose.getD 0) ++ " mg/dL - Risk of DKA/HHS",
       condition := "Hyperglycemia", vitalSignsInvolved := ["blood_glucose"],
       recommendedActions :=
         ["Check for DKA (BMP, VBG, ketones, anion gap)",
          "Start insulin drip if DKA confirmed",
          "Aggressive IV fluid resuscitation",
          "Potassium monitoring",
          "Endocrinology consult"],
       timeCritical := true, escalationRequired := false, timestamp := now }]
   else []) ++
  (if truthyNum v.bloodGlucose ∧ v.bloodGlucose.getD 0 ≤ 50 then
    [{ level := .emergency, title := "SEVERE HYPOGLYCEMIA",
       message := "Blood glucose " ++ ratStr (v.bloodGlucose.getD 0) ++ " mg/dL - Immediate treatment required",
       condition := "Hypoglycemia", vitalSignsInvolved := ["blood_glucose"],
       recommendedActions :=
         ["D50 IV push immediately (if conscious: PO glucose)",
          "Continuous glucose monitoring",
          "Check insulin/sulfonylurea levels",
          "Assess for altered mental status",
          "Prevent recurrence"],
       timeCritical := true, escalationRequired := true, timestamp := now }]
   else [])

/-- `VitalSignsAnalyzer._calculate_sirs_criteria(vitals)` (vital_signs.py). -/
def calculateSirsCriteria (v : VitalSigns) : ℕ × Bool :=
  let c1 : ℕ :=
    if truthyNum v.temperature ∧
       (v.temperature.getD 0 > 38 ∨ v.temperature.getD 0 < 36) then 1 else 0
  let c2 : ℕ := if truthyNum v.heartRate ∧ v.heartRate.getD 0 > 90 then 1 else 0
  let c3 : ℕ := if truthyNum v.respiratoryRate ∧ v.respiratoryRate.getD 0 > 20 then 1 else 0
  let met := c1 + c2 + c3
  (met, 2 ≤ met)

/-- `VitalSignsAnalyzer._calculate_news_score(vitals)` (vital_signs.py). -/
def calculateNewsScore (v : VitalSigns) : ℕ :=
  (if truthyNum v.respiratoryRate then
    let rr := v.respiratoryRate.getD 0
    if rr ≤ 8 then 3 else if rr ≤ 11 then 1 else if rr ≤ 20 then 0
    else if rr ≤ 24 then 2 else 3
   else 0) +
  (if truthyNum v.spo2 then
    let s := v.spo2.getD 0
    if s ≤ 91 then 3 else if s ≤ 93 then 2 else if s ≤ 95 then 1 else 0
   else 0) +
  (if truthyNum v.systolicBp then
    let sbp := v.systolicBp.getD 0
    if sbp ≤ 90 then 3 else if sbp ≤ 100 then 2 else if sbp ≤ 110 then 1
    else if sbp ≤ 219 then 0 else 3
   else 0) +
  (if truthyNum v.heartRate then
    let hr := v.heartRate.getD 0
    if hr ≤ 40 then 3 else if hr ≤ 50 then 1 else if hr ≤ 90 then 0
    else if hr ≤ 110 then 1 else if hr ≤ 130 then 2 else 3
   else 0) +
  (if truthyNum v.temperature then
    let t := v.temperature.getD 0
    if t ≤ 35 then 3 else if t ≤ 36 then 1 else if t ≤ 38 then 0
    else if t ≤ 39 then 1 else 2
   else 0) +
  (if truthyNum v.gcsScore ∧ v.gcsScore.getD 0 < 15 then 3 else 0)

/-- The per-vital statuses assembled by `analyze` (only supplied vitals get
an entry; `is not None` checks, not truthiness). -/
def buildStatuses (v : VitalSigns) (ageGroup : String) :
    List (String × VitalSignStatus) :=
  (match v.temperature with
   | some _ => [("temperature", assessVitalSign v.temperature "temperature_c" ageGroup)]
   | none => []) ++
  (match v.heartRate with
   | some _ => [("heart_rate", assessVitalSign v.heartRate "heart_rate_bpm" ageGroup)]
   | none => []) ++
  (match v.respiratoryRate with
   | some _ => [("respiratory_rate", assessVitalSign v.respiratoryRate "respiratory_rate_bpm" ageGroup)]
   | none => []) ++
  (match v.systolicBp with
   | some _ => [("systolic_bp", assessVitalSign v.systolicBp "systolic_bp_mmhg" ageGroup)]
   | none => []) ++
  (match v.diastolicBp with
   | some _ => [("diastolic_bp", assessVitalSign v.diastolicBp "diastolic_bp_mmhg" ageGroup)]
   | none => []) ++
  (match v.spo2 with
   | some _ => [("spo2", assessVitalSign v.spo2 "spo2_percent" "all")]
   | none => []) ++
  (match v.gcsScore with
   | some _ => [("gcs", assessVitalSign v.gcsScore "gcs_score" "all")]
   | none => [])

/-- Overall severity: worst of the individual statuses. -/
def overallSeverity (statuses : List (String × VitalSignStatus)) : String :=
  if statuses.any (fun p => p.2 = VitalSignStatus.critical) then "critical"
  else if statuses.any (fun p => p.2 = VitalSignStatus.abnormal) then "abnormal"
  else if statuses.any (fun p => p.2 = VitalSignStatus.borderline) then "borderline"
  else "normal"

/-- `VitalSignsAnalyzer.analyze(vitals)` (vital_signs.py).

`none` models a non-`VitalSigns` argument, for which the source RAISES
`ValueError("Invalid vitals data")` to the caller (it is not caught); the
inner `try/except` re-raises any internal error.  The escaping exception
is modelled by `Except.error`. -/
def analyzeVitals (ov : Option VitalSigns) (now : String) :
    Except String VitalSignsAnalysis :=
  match ov with
  | none => .error "Invalid vitals data"
  | some v =>
    let ageGroup := getAgeGroup v.ageYears
    let statuses := buildStatuses v ageGroup
    let redFlags := detectRedFlags v statuses now
    let sirs := calculateSirsCriteria v
    let newsScore := calculateNewsScore v
    let severity := overallSeverity statuses
    let recommendations :=
      (if ¬redFlags.isEmpty then
        ["⚠️ " ++ toString redFlags.length ++ " critical alert(s) - immediate attention required"]
       else []) ++
      (if sirs.2 then
        ["⚠️ SIRS criteria met (" ++ toString sirs.1 ++ "/4) - assess for sepsis"]
       else []) ++
      (if 7 ≤ newsScore then
        ["⚠️ High NEWS score (" ++ toString newsScore ++ ") - urgent medical review required"]
       else if 5 ≤ newsScore then
        ["⚠️ Medium NEWS score (" ++ toString newsScore ++ ") - increased monitoring frequency"]
       else []) ++
      (if ¬vitalsIsComplete v then
        ["ℹ️ Incomplete vital signs - obtain missing measurements"]
       else [])
    .ok { vitals := v, statuses := statuses, redFlags := redFlags,
          sirsCriteriaMet := sirs.1, sirsPositive := sirs.2,
          newsScore := newsScore, severity := severity,
          recommendations := recommendations }

/-! ### `risk_scores.py`: MELD -/

/-- `RiskLevel` (risk_scores.py). -/
inductive RiskLevel
  | minimal
  | low
  | moderate
  | high
  | veryHigh
  | critical
deriving DecidableEq, Repr

/-- `ScoreResult` (risk_scores.py). -/
structure ScoreResult where
  score : ℤ
  maxScore : ℤ
  riskLevel : RiskLevel
  interpretation : String
  recommendations : List String
  missingData : List String
  scoreDetails : List (String × String)
deriving DecidableEq, Repr

/-- `RiskScoreCalculator.calculate_meld` (risk_scores.py).

`math.log` is a transcendental float operation, so the natural logarithm
is abstracted as the function parameter `log`; the floored arguments are
at least `1`, so the source's guarded `ValueError`/`OverflowError` branch
is unreachable.  `round` is Python half-to-even rounding (`pyRound`). -/
def calculateMeld (log : ℚ → ℚ) (creatinine bilirubin inr : Option ℚ)
    (dialysisTwice : Bool) : ScoreResult :=
  let missing :=
    (if creatinine.isNone then ["creatinine"] else []) ++
    (if bilirubin.isNone then ["bilirubin"] else []) ++
    (if inr.isNone then ["INR"] else [])
  if ¬missing.isEmpty then
    { score := 0, maxScore := 40, riskLevel := .low,
      interpretation := "Cannot calculate - missing required lab values",
      recommendations := ["ℹ️ Obtain: " ++ String.intercalate ", " missing],
      missingData := missing, scoreDetails := [] }
  else
    let creat0 := max 1 (creatinine.getD 0)
    let bili := max 1 (bilirubin.getD 0)
    let inrVal := max 1 (inr.getD 0)
    let creat := if dialysisTwice then 4 else creat0
    let rawScore := 10 * ((957/1000) * log creat + (378/1000) * log bili +
      (1120/1000) * log inrVal + (643/1000))
    let score := max 6 (min 40 (pyRound rawScore))
    let riskLevel :=
      if score < 10 then RiskLevel.low
      else if score < 20 then RiskLevel.moderate
      else if score < 30 then RiskLevel.high
      else if score < 40 then RiskLevel.veryHigh
      else RiskLevel.critical
    let interpretation :=
      if score < 10 then "MELD " ++ toString score ++ ": 1.9% 90-day mortality"
      else if score < 20 then "MELD " ++ toString score ++ ": ~6% 90-day mortality"
      else if score < 30 then "MELD " ++ toString score ++ ": ~20% 90-day mortality"
      else if score < 40 then "MELD " ++ toString score ++ ": ~53% 90-day mortality"
      else "MELD " ++ toString score ++ ": >70% 90-day mortality"
    let recommendations :=
      (if 15 ≤ score then
        ["⚠️ High MELD score - transplant evaluation indicated",
         "Hepatology/transplant surgery consultation"]
       else []) ++
      (if 30 ≤ score then
        ["🚨 Critical MELD score - urgent transplant consideration",
         "ICU-level monitoring may be required"]
       else []) ++
      ["Recalculate MELD regularly (weekly-monthly depending on score)"]
    { score := score, maxScore := 40, riskLevel := riskLevel,
      interpretation := interpretation,
      recommendations := recommendations,
      missingData := [],
      scoreDetails :=
        [("Creatinine", ratStr (creatinine.getD 0) ++ " mg/dL"),
         ("Bilirubin", ratStr (bilirubin.getD 0) ++ " mg/dL"),
         ("INR", ratStr (inr.getD 0)),
         ("Dialysis", if dialysisTwice then "Yes (creatinine set to 4.0)" else "No")] }

/-- An adult vitals snapshot whose temperature is exactly `40.0` °C
(everything else unmeasured). -/
def tempFortyVitals : VitalSigns :=
  { temperature := some 40, heartRate := none, respiratoryRate := none,
    systolicBp := none, diastolicBp := none, spo2 := none, gcsScore := none,
    painScore := none, bloodGlucose := none, ageYears := none,
    weightKg := none, heightCm := none, timestamp := "2025-01-01T00:00:00",
    measuredBy := none, location := none }

/-! ## Theorems -/

theorem pyTrunc_of_nonneg {q : ℚ} (h : 0 ≤ q) : pyTrunc q = ⌊q⌋ := by
  unfold pyTrunc
  rw [if_neg (not_lt.mpr h)]

/-- C1.  The claim's urgency-score formula uses `round`; the source uses
Python `int()` truncation.  At a critical disease with confidence `0.95`
the code returns `min(10, max(8, int(8.55))) = 8` while the claim's
`min(10, max(8, round(8.55))) = 9`, so the claim as stated is false. -/
theorem C1_urgency_round_counterexample :
    (assessUrgency "Heart attack" (19/20)).2.2 = 8 ∧
    min 10 (max 8 (pyRound (9 * (19/20 : ℚ)))) = 9 := by
  have harg : (9 : ℚ) * (19/20) = 171/20 := by norm_num
  have hfloor : ⌊(171/20 : ℚ)⌋ = 8 := by
    rw [Int.floor_eq_iff]
    norm_num
  have htr : pyTrunc (9 * (19/20 : ℚ)) = 8 := by
    rw [pyTrunc_of_nonneg (by norm_num), harg, hfloor]
  have hrd : pyRound (9 * (19/20 : ℚ)) = 9 := by
    unfold pyRound
    rw [harg, hfloor]
    rw [if_neg (by norm_num), if_pos (by norm_num)]
    norm_num
  have hc : "Heart attack" ∈ criticalConditions := by decide
  constructor
  · show (assessUrgency "Heart attack" (19/20)).2.2 = 8
    unfold assessUrgency
    simp only [hc, htr, decide_eq_true_eq, if_true, decide_True]
    norm_num [min_def, max_def]
  · rw [hrd]
    norm_num [min_def, max_def]

/-- C1 (amended).  For every disease and confidence `c ∈ [0,1]`,
`assess_urgency` reports `is_critical` exactly on the critical-conditions
set, `is_urgent` exactly on the urgent or critical sets, and the urgency
score is `min(10, max(8, floor(9c)))` for critical diseases,
`min(10, max(6, floor(7c)))` for urgent ones and `min(10, floor(3c))`
otherwise — `floor`, not `round`, since Python `int()` truncates and the
argument is non-negative. -/
theorem C1_assess_urgency (disease : String) (c : ℚ)
    (h0 : 0 ≤ c) (_h1 : c ≤ 1) :
    ((assessUrgency disease c).2.1 = true ↔ disease ∈ criticalConditions) ∧
    ((assessUrgency disease c).1 = true ↔
       (disease ∈ urgentConditions ∨ disease ∈ criticalConditions)) ∧
    ((assessUrgency disease c).2.2 =
      if disease ∈ criticalConditions then min 10 (max 8 ⌊9 * c⌋)
      else if disease ∈ urgentConditions then min 10 (max 6 ⌊7 * c⌋)
      else min 10 ⌊3 * c⌋) := by
  have h9 : pyTrunc (9 * c) = ⌊9 * c⌋ := pyTrunc_of_nonneg (by linarith)
  have h7 : pyTrunc (7 * c) = ⌊7 * c⌋ := pyTrunc_of_nonneg (by linarith)
  have h3 : pyTrunc (3 * c) = ⌊3 * c⌋ := pyTrunc_of_nonneg (by linarith)
  unfold assessUrgency
  by_cases hc : disease ∈ criticalConditions <;>
    by_cases hu : disease ∈ urgentConditions <;>
      simp [hc, hu, h9, h7, h3]

theorem C1_assess_urgency_witness :
    (0 : ℚ) ≤ 1/2 ∧ (1/2 : ℚ) ≤ 1 ∧
    (((assessUrgency "Stroke" (1/2)).2.1 = true ↔ "Stroke" ∈ criticalConditions) ∧
     ((assessUrgency "Stroke" (1/2)).1 = true ↔
        ("Stroke" ∈ urgentConditions ∨ "Stroke" ∈ criticalConditions)) ∧
     ((assessUrgency "Stroke" (1/2)).2.2 =
       if "Stroke" ∈ criticalConditions then min 10 (max 8 ⌊9 * (1/2 : ℚ)⌋)
       else if "Stroke" ∈ urgentConditions then min 10 (max 6 ⌊7 * (1/2 : ℚ)⌋)
       else min 10 ⌊3 * (1/2 : ℚ)⌋)) :=
  ⟨by norm_num, by norm_num,
   C1_assess_urgency "Stroke" (1/2) (by norm_num) (by norm_num)⟩

/-- C3.  The claim says no exception escapes any public entry point; but
`VitalSignsAnalyzer.analyze` raises `ValueError("Invalid vitals data")`
to its caller when handed a non-`VitalSigns` argument (and its inner
`except` clause re-raises), modelled here as an `Except.error` result. -/
theorem C3_analyze_raises_counterexample :
    analyzeVitals none "2025-01-01T00:00:00" = Except.error "Invalid vitals data" :=
  rfl

/-- C3 (amended).  `diagnose` is total: a `None`/empty query and the
no-symptoms case each yield a failure result (`success = false`, an error
message, and the example-query guidance for the no-symptoms case), never
an exception.  `analyze`, however, returns normally only on actual
`VitalSigns` input; a non-`VitalSigns` argument makes it raise
`ValueError` to the caller instead of returning a result object. -/
theorem C3_failure_results :
    (∀ (m : DiseaseModel) (lookup : List (String × String)) (rf : Bool)
        (now : String) (el : ℚ),
       (diagnose m lookup none rf now el).success = false ∧
       (diagnose m lookup none rf now el).error = some "Query must be a non-empty string") ∧
    (∀ (m : DiseaseModel) (lookup : List (String × String)) (rf : Bool)
        (now : String) (el : ℚ),
       (diagnose m lookup (some "") rf now el).success = false ∧
       (diagnose m lookup (some "") rf now el).error = some "Query must be a non-empty string") ∧
    (∀ (m : DiseaseModel) (lookup : List (String × String)) (s : String)
        (rf : Bool) (now : String) (el : ℚ) (base : List String),
       s ≠ "" →
       extractSymptoms lookup s = some base →
       (enhanceSymptomExtraction s base).1 = [] →
       (diagnose m lookup (some s) rf now el).success = false ∧
       (diagnose m lookup (some s) rf now el).error = some "No symptoms detected in query" ∧
       (diagnose m lookup (some s) rf now el).recommendations =
         ["Include specific symptoms: fever, cough, chest pain, headache, etc.",
          "Use medical terminology or common clinical descriptions",
          "Example: \"Patient presents with chest pain, sweating, and shortness of breath\""]) ∧
    (∀ (v : VitalSigns) (now : String), ∃ r, analyzeVitals (some v) now = Except.ok r) ∧
    (∀ now : String, analyzeVitals none now = Except.error "Invalid vitals data") := by
  refine ⟨?_, ?_, ?_, ?_, ?_⟩
  · intro m lookup rf now el
    exact ⟨rfl, rfl⟩
  · intro m lookup rf now el
    exact ⟨rfl, rfl⟩
  · intro m lookup s rf now el base hs hx henh
    unfold diagnose
    dsimp only
    rw [if_neg hs, hx]
    dsimp only
    rw [henh]
    exact ⟨rfl, rfl, rfl⟩
  · intro v now
    exact ⟨_, rfl⟩
  · intro now
    exact rfl

theorem C3_failure_results_witness :
    ("x" ≠ "") ∧
    extractSymptoms [] "x" = some [] ∧
    (enhanceSymptomExtraction "x" []).1 = [] ∧
    ((diagnose ⟨[], [], []⟩ [] (some "x") true "t" 0).success = false ∧
     (diagnose ⟨[], [], []⟩ [] (some "x") true "t" 0).error =
       some "No symptoms detected in query" ∧
     (diagnose ⟨[], [], []⟩ [] (some "x") true "t" 0).recommendations =
       ["Include specific symptoms: fever, cough, chest pain, headache, etc.",
        "Use medical terminology or common clinical descriptions",
        "Example: \"Patient presents with chest pain, sweating, and shortness of breath\""]) :=
  ⟨by decide, by decide, by decide,
   C3_failure_results.2.2.1 ⟨[], [], []⟩ [] "x" true "t" 0 []
     (by decide) (by decide) (by decide)⟩

/-- C7.  `calculate_meld`: a missing creatinine, bilirubin or INR yields a
zero score with the explicit cannot-calculate interpretation (never a
partial score); otherwise each lab is floored at `1.0`, creatinine is
forced to `4.0` under `dialysis_twice`, and the score is the published
formula rounded to the nearest integer (Python half-to-even) and clamped
to `[6, 40]`; at creatinine = bilirubin = INR = `1.0` the score is `6`. -/
theorem C7_calculate_meld :
    (∀ (log : ℚ → ℚ) (creatinine bilirubin inr : Option ℚ) (dial : Bool),
       (creatinine = none ∨ bilirubin = none ∨ inr = none) →
       (calculateMeld log creatinine bilirubin inr dial).score = 0 ∧
       (calculateMeld log creatinine bilirubin inr dial).interpretation =
         "Cannot calculate - missing required lab values") ∧
    (∀ (log : ℚ → ℚ) (c b i : ℚ) (dial : Bool),
       (calculateMeld log (some c) (some b) (some i) dial).score =
         max 6 (min 40 (pyRound (10 * ((957/1000) * log (if dial then 4 else max 1 c) +
           (378/1000) * log (max 1 b) + (1120/1000) * log (max 1 i) + 643/1000))))) ∧
    (∀ log : ℚ → ℚ, log 1 = 0 →
       (calculateMeld log (some 1) (some 1) (some 1) false).score = 6) := by
  refine ⟨?_, ?_, ?_⟩
  · intro log creatinine bilirubin inr dial h
    have hne : ¬((if creatinine.isNone then ["creatinine"] else []) ++
        (if bilirubin.isNone then ["bilirubin"] else []) ++
        (if inr.isNone then ["INR"] else [])).isEmpty = true := by
      rcases h with h | h | h <;> subst h
      · simp
      · cases creatinine <;> simp
      · cases creatinine <;> cases bilirubin <;> simp
    unfold calculateMeld
    rw [if_pos hne]
    exact ⟨rfl, rfl⟩
  · intro log c b i dial
    unfold calculateMeld
    rw [if_neg (by simp)]
    rfl
  · intro log hlog
    unfold calculateMeld
    rw [if_neg (by simp)]
    have h1 : max (1 : ℚ) ((some (1 : ℚ)).getD 0) = 1 := by simp
    simp only [h1, if_false, Bool.false_eq_true]
    rw [hlog]
    have harg : (10 : ℚ) * ((957/1000) * 0 + (378/1000) * 0 + (1120/1000) * 0 + 643/1000) =
        643/100 := by norm_num
    rw [harg]
    have hfloor : ⌊(643/100 : ℚ)⌋ = 6 := by
      rw [Int.floor_eq_iff]
      norm_num
    have hrd : pyRound (643/100 : ℚ) = 6 := by
      unfold pyRound
      rw [hfloor]
      rw [if_pos (by norm_num)]
    rw [hrd]
    norm_num [min_def, max_def]

theorem C7_calculate_meld_witness :
    ((fun _ : ℚ => (0 : ℚ)) 1 = 0) ∧
    (calculateMeld (fun _ => 0) (some 1) (some 1) (some 1) false).score = 6 :=
  ⟨rfl, C7_calculate_meld.2.2 (fun _ => 0) rfl⟩

/-- C9.  The per-vital classifier compares strictly against the critical
bounds, so a value exactly at its critical threshold is ABNORMAL, not
CRITICAL, while the red-flag battery is inclusive: an adult temperature
of exactly `40.0` °C gets status `abnormal` yet still emits the
EMERGENCY-level CRITICAL HYPERTHERMIA red flag with
`time_critical = true`. -/
theorem C9_critical_boundary :
    (∀ (vname g : String) (rd : VRange) (hc : ℚ),
       rangeFor vname g = some rd →
       rd.highCritical = some hc →
       rd.lowCritical.getD 0 ≤ hc →
       rd.low ≤ hc →
       rd.high < hc →
       assessVitalSign (some hc) vname g = VitalSignStatus.abnormal) ∧
    (∃ r, analyzeVitals (some tempFortyVitals) "2025-01-01T00:00:00" = Except.ok r ∧
       assocFind r.statuses "temperature" = some VitalSignStatus.abnormal ∧
       r.redFlags.any (fun f => f.title = "CRITICAL HYPERTHERMIA" ∧
         f.timeCritical = true ∧ f.level = AlertLevel.emergency) = true) := by
  constructor
  · intro vname g rd hcv hrange hhc hlc hlow hhigh
    have h1 : ¬(truthyNum rd.lowCritical = true ∧ hcv < rd.lowCritical.getD 0) := by
      rintro ⟨-, hlt⟩
      exact absurd (lt_of_lt_of_le hlt hlc) (lt_irrefl _)
    have h2 : ¬(truthyNum rd.highCritical = true ∧ hcv > rd.highCritical.getD 0) := by
      rintro ⟨-, hgt⟩
      rw [hhc] at hgt
      simp only [Option.getD_some] at hgt
      exact absurd hgt (lt_irrefl _)
    unfold assessVitalSign
    dsimp only
    rw [hrange]
    dsimp only
    rw [if_neg h1, if_neg h2, if_neg (not_lt.mpr hlow), if_pos hhigh]
  · exact ⟨_, rfl, by with_unfolding_all decide, by with_unfolding_all decide⟩

theorem C9_critical_boundary_witness :
    rangeFor "temperature_c" "adult" =
      some { lowCritical := some 35, low := 361/10, high := 378/10, highCritical := some 40 } ∧
    assessVitalSign (some 40) "temperature_c" "adult" = VitalSignStatus.abnormal :=
  ⟨by with_unfolding_all decide,
   C9_critical_boundary.1 "temperature_c" "adult"
     { lowCritical := some 35, low := 361/10, high := 378/10, highCritical := some 40 }
     40 (by with_unfolding_all decide) rfl (by norm_num) (by norm_num) (by norm_num)⟩

theorem map_fst_mulKey (l : List (String × ℚ)) (k : String) (f : ℚ) :
    (mulKey l k f).map Prod.fst = l.map Prod.fst := by
  unfold mulKey
  rw [List.map_map]
  apply List.map_congr_left
  intro p _
  by_cases h : p.1 = k <;> simp [h]

theorem foldl_keys_preserved {β : Type} (f : List (String × ℚ) → β → List (String × ℚ))
    (hf : ∀ acc b, (f acc b).map Prod.fst = acc.map Prod.fst) :
    ∀ (bs : List β) (acc : List (String × ℚ)),
      ((bs.foldl f acc).map Prod.fst) = acc.map Prod.fst := by
  intro bs
  induction bs with
  | nil => intro acc; rfl
  | cons b bs ih =>
    intro acc
    rw [List.foldl_cons, ih, hf]

/-- C10.  `apply_pattern_boosts` returns a dictionary with exactly the keys
of its input: pattern and location boosts only multiply the probability of
a disease already present (`disease in boosted`), never add or remove one;
the `except` fallback returns the input copy, which also preserves the
keys, and with no fired patterns and no locations the input is returned
unchanged. -/
theorem C10_pattern_boost_keys (posteriors : List (String × ℚ))
    (mp : List MatchedPattern) (lc : List (String × List String)) :
    (applyPatternBoosts posteriors mp lc).map Prod.fst = posteriors.map Prod.fst ∧
    applyPatternBoosts posteriors [] [] = posteriors := by
  constructor
  · unfold applyPatternBoosts
    by_cases hp : posteriors.isEmpty
    · rw [if_pos hp]
      rw [List.isEmpty_iff] at hp
      rw [hp]
    · rw [if_neg hp]
      rw [foldl_keys_preserved, foldl_keys_preserved]
      · intro acc b
        by_cases h : b.disease ≠ "" ∧ containsKey acc b.disease = true <;>
          simp [h, map_fst_mulKey]
      · intro acc b
        apply foldl_keys_preserved
        intro acc' d
        by_cases h : containsKey acc' d = true <;> simp [h, map_fst_mulKey]
  · unfold applyPatternBoosts
    by_cases hp : posteriors.isEmpty
    · rw [if_pos hp]
      rw [List.isEmpty_iff] at hp
      rw [hp]
    · rw [if_neg hp]
      rfl

theorem pySplitAux_no_space (l : List Char) :
    ∀ (cur : List Char), (∀ c ∈ cur, c.isWhitespace = false) →
      ∀ t ∈ pySplitAux cur l, ∀ c ∈ t, c.isWhitespace = false := by
  induction l with
  | nil =>
    intro cur hcur t ht c hc
    simp only [pySplitAux, List.mem_singleton] at ht
    subst ht
    exact hcur c (List.mem_reverse.mp hc)
  | cons a as ih =>
    intro cur hcur t ht c hc
    by_cases ha : a.isWhitespace = true
    · rw [pySplitAux, if_pos ha] at ht
      rcases List.mem_cons.mp ht with h | h
      · subst h
        exact hcur c (List.mem_reverse.mp hc)
      · exact ih [] (by intro x hx; cases hx) t h c hc
    · rw [pySplitAux, if_neg ha] at ht
      refine ih (a :: cur) ?_ t ht c hc
      intro x hx
      rcases List.mem_cons.mp hx with h | h
      · subst h
        exact Bool.eq_false_iff.mpr ha
      · exact hcur x h

theorem pySplit_no_space (l : List Char) :
    ∀ t ∈ pySplit l, ∀ c ∈ t, c.isWhitespace = false := by
  intro t ht
  have hmem := (List.mem_filter.mp ht).1
  exact pySplitAux_no_space l [] (by intro x hx; cases hx) t hmem

theorem contains_space_token (l w : List Char) (c : Char)
    (hcw : c ∈ w) (hc : c.isWhitespace = true) :
    (pySplit l).contains w = false := by
  by_contra h
  rw [Bool.not_eq_false] at h
  have hw : w ∈ pySplit l := List.mem_of_elem_eq_true h
  have := pySplit_no_space l w hw c hcw
  rw [hc] at this
  cases this

theorem isNegatedAt_eq_claim (tl : List Char) (i : ℕ) :
    isNegatedAt tl i =
      (["no", "not", "denies", "without", "absent", "negative", "ruled out", "r/o"].any
        (fun w => (pySplit (negationWindow tl i)).contains w.data)) := by
  have hnf : (pySplit (negationWindow tl i)).contains ("negative for".data) = false :=
    contains_space_token _ _ ' ' (by decide) (by decide)
  have hro : (pySplit (negationWindow tl i)).contains ("ruled out".data) = false :=
    contains_space_token _ _ ' ' (by decide) (by decide)
  unfold isNegatedAt negationWords
  simp only [List.any_cons, List.any_nil, hnf, hro, Bool.or_false, Bool.false_or]

theorem mem_addSym (l : List String) (s x : String) :
    x ∈ addSym l s ↔ x ∈ l ∨ x = s := by
  unfold addSym
  by_cases h : s ∈ l
  · rw [if_pos h]
    constructor
    · exact Or.inl
    · rintro (hx | rfl)
      · exact hx
      · exact h
  · rw [if_neg h]
    simp [List.mem_append]

theorem extractStep_eq (tl : List Char) (d : List String) (e : String × String) :
    extractStep tl d e =
      if variantAsserts tl e.1.data = true then addSym d e.2 else d := by
  unfold extractStep variantAsserts
  cases hfm : firstWordMatch tl e.1.data with
  | none => simp
  | some i =>
    by_cases hneg : isNegatedAt tl i = true <;> simp [hneg]

theorem mem_extract_foldl (tl : List Char) (lookup : List (String × String)) :
    ∀ (init : List String) (code : String),
      code ∈ lookup.foldl (extractStep tl) init ↔
        code ∈ init ∨ ∃ p ∈ lookup, p.2 = code ∧ variantAsserts tl p.1.data = true := by
  induction lookup with
  | nil =>
    intro init code
    simp
  | cons e rest ih =>
    intro init code
    rw [List.foldl_cons, ih, extractStep_eq]
    by_cases hv : variantAsserts tl e.1.data = true
    · rw [if_pos hv]
      rw [mem_addSym]
      constructor
      · rintro (⟨hx | rfl⟩ | ⟨p, hp, hpc, hpa⟩)
        · exact Or.inl hx
        · exact Or.inr ⟨e, List.mem_cons_self _ _, rfl, hv⟩
        · exact Or.inr ⟨p, List.mem_cons_of_mem _ hp, hpc, hpa⟩
      · rintro (hx | ⟨p, hp, hpc, hpa⟩)
        · exact Or.inl (Or.inl hx)
        · rcases List.mem_cons.mp hp with rfl | hp'
          · exact Or.inl (Or.inr hpc.symm)
          · exact Or.inr ⟨p, hp', hpc, hpa⟩
    · rw [if_neg hv]
      constructor
      · rintro (hx | ⟨p, hp, hpc, hpa⟩)
        · exact Or.inl hx
        · exact Or.inr ⟨p, List.mem_cons_of_mem _ hp, hpc, hpa⟩
      · rintro (hx | ⟨p, hp, hpc, hpa⟩)
        · exact Or.inl hx
        · rcases List.mem_cons.mp hp with rfl | hp'
          · exact absurd hpa hv
          · exact Or.inr ⟨p, hp', hpc, hpa⟩

theorem firstWordMatch_nil (v : List Char) : firstWordMatch [] v = none := by
  unfold firstWordMatch
  apply List.find?_eq_none.mpr
  intro i _
  unfold wordMatchAt boundaryAt wordCharAt
  by_cases hi : i = 0 <;> simp [hi]

/-- C4.  A catalog phrase with a whole-word occurrence asserts its canonical
code exactly when none of the claim's eight negation markers occurs as a
whole whitespace-delimited token of the 60 characters preceding the (first)
match.  The source's ninth marker `negative for` — like `ruled out` — can
never equal a single whitespace-delimited token, so the source check
coincides with the claim's eight-marker check.  In particular
"patient denies fever" asserts nothing while "fever" asserts
`high_fever`. -/
theorem C4_negation_extraction :
    (∀ (lookup : List (String × String)) (text variant code : String) (i : ℕ),
       (variant, code) ∈ lookup →
       firstWordMatch (lowerStrip text.data) variant.data = some i →
       (["no", "not", "denies", "without", "absent", "negative", "ruled out", "r/o"].any
          (fun w => (pySplit (negationWindow (lowerStrip text.data) i)).contains w.data)) = false →
       code ∈ (extractSymptoms lookup text).getD []) ∧
    (∀ (lookup : List (String × String)) (text code : String),
       (∀ (variant : String) (i : ℕ), (variant, code) ∈ lookup →
          firstWordMatch (lowerStrip text.data) variant.data = some i →
          (["no", "not", "denies", "without", "absent", "negative", "ruled out", "r/o"].any
             (fun w => (pySplit (negationWindow (lowerStrip text.data) i)).contains w.data)) = true) →
       code ∉ (extractSymptoms lookup text).getD []) ∧
    extractSymptoms [("fever", "high_fever")] "patient denies fever" = some [] ∧
    extractSymptoms [("fever", "high_fever")] "fever" = some ["high_fever"] := by
  refine ⟨?_, ?_, by decide, by decide⟩
  · intro lookup text variant code i hmem hfm hneg
    by_cases ht : text = ""
    · subst ht
      rw [show lowerStrip ("" : String).data = [] from rfl, firstWordMatch_nil] at hfm
      cases hfm
    · have hx : extractSymptoms lookup text =
          some (lookup.foldl (extractStep (lowerStrip text.data)) []) := by
        unfold extractSymptoms
        rw [if_neg ht]
      rw [hx, Option.getD_some, mem_extract_foldl]
      refine Or.inr ⟨(variant, code), hmem, rfl, ?_⟩
      unfold variantAsserts
      rw [hfm]
      dsimp only
      rw [isNegatedAt_eq_claim, hneg]
      rfl
  · intro lookup text code hall
    by_cases ht : text = ""
    · subst ht
      rw [show extractSymptoms lookup "" = none from rfl]
      simp
    · have hx : extractSymptoms lookup text =
          some (lookup.foldl (extractStep (lowerStrip text.data)) []) := by
        unfold extractSymptoms
        rw [if_neg ht]
      rw [hx, Option.getD_some, mem_extract_foldl]
      rintro (hx0 | ⟨p, hp, hpc, hpa⟩)
      · cases hx0
      · have hpq : p = (p.1, code) := by
          rw [Prod.ext_iff]
          exact ⟨rfl, hpc⟩
        rw [hpq] at hp
        unfold variantAsserts at hpa
        cases hfm : firstWordMatch (lowerStrip text.data) p.1.data with
        | none =>
          rw [hfm] at hpa
          cases hpa
        | some i =>
          rw [hfm] at hpa
          dsimp only at hpa
          rw [isNegatedAt_eq_claim, hall p.1 i hp hfm] at hpa
          cases hpa

theorem C4_negation_extraction_witness :
    (("fever", "high_fever") ∈ [("fever", "high_fever")]) ∧
    firstWordMatch (lowerStrip ("patient has fever" : String).data) ("fever" : String).data =
      some 12 ∧
    (["no", "not", "denies", "without", "absent", "negative", "ruled out", "r/o"].any
       (fun w => (pySplit (negationWindow
          (lowerStrip ("patient has fever" : String).data) 12)).contains w.data)) = false ∧
    "high_fever" ∈ (extractSymptoms [("fever", "high_fever")] "patient has fever").getD [] :=
  ⟨by decide, by decide, by decide,
   C4_negation_extraction.1 [("fever", "high_fever")] "patient has fever" "fever" "high_fever" 12
     (by decide) (by decide) (by decide)⟩

theorem sumValues_cons (a : String × ℚ) (l : List (String × ℚ)) :
    sumValues (a :: l) = a.2 + sumValues l := by
  unfold sumValues
  rw [List.map_cons, List.sum_cons]

theorem sumValues_map_div (l : List (String × ℚ)) (T : ℚ) :
    sumValues (l.map (fun p => (p.1, p.2 / T))) = sumValues l / T := by
  induction l with
  | nil => simp [sumValues]
  | cons a l ih =>
    rw [List.map_cons, sumValues_cons, sumValues_cons, ih, add_div]

theorem sumValues_threshold_split (l : List (String × ℚ)) :
    sumValues (filterPosteriors l) +
      sumValues (l.filter (fun p => p.2 < minProbabilityThreshold)) = sumValues l := by
  unfold filterPosteriors
  induction l with
  | nil => simp [sumValues]
  | cons a l ih =>
    by_cases h : minProbabilityThreshold ≤ a.2
    · rw [List.filter_cons_of_pos (by simpa using h),
          List.filter_cons_of_neg (by simpa using not_lt.mpr h),
          sumValues_cons, sumValues_cons]
      linarith [ih]
    · rw [List.filter_cons_of_neg (by simpa using h),
          List.filter_cons_of_pos (by simpa using lt_of_not_le h),
          sumValues_cons, sumValues_cons]
      linarith [ih]

/-- C5.  The claim (the probabilities returned by `compute_diagnosis` sum to
1 within floating-point tolerance) is false: the engine normalizes FIRST
and then drops diseases below the `0.0001` threshold, so the dropped mass
is missing from the returned sum.  With priors `A = 1`, `B = 1/10001`, one
asserted symptom unknown to both diseases, the returned distribution is
`{A: 10001/10002}`, whose total falls short of `1` by `1/10002` — four
orders of magnitude above double-precision tolerance. -/
theorem C5_sum_counterexample :
    computeDiagnosis ⟨[], [("A", 1), ("B", 1/10001)], []⟩ ["s"] "" =
      some [("A", 10001/10002)] ∧
    sumValues [("A", (10001 : ℚ)/10002)] = 10001/10002 ∧
    (1 : ℚ) - 10001/10002 > 1/20000 := by
  refine ⟨?_, by norm_num [sumValues], by norm_num⟩
  norm_num [computeDiagnosis, boostedPosteriors, basePosteriors, normalizePosteriors,
    filterPosteriors, lookup2, assocFind, assocFindD, sumValues, minProbabilityThreshold]

/-- C5 (amended).  The disease probabilities sum to exactly 1 immediately
after renormalization; the subsequent minimum-probability filter
(threshold `0.0001`) then removes the mass of the dropped diseases, so the
returned distribution sums to `1` minus the dropped mass, and sums to
exactly `1` precisely when the filter drops nothing. -/
theorem C5_posterior_sum (m : DiseaseModel) (symptoms : List String)
    (text : String) (hs : symptoms.isEmpty = false)
    (hpos : 0 < sumValues (boostedPosteriors m symptoms text)) :
    sumValues (normalizePosteriors (boostedPosteriors m symptoms text)) = 1 ∧
    computeDiagnosis m symptoms text =
      some (filterPosteriors (normalizePosteriors (boostedPosteriors m symptoms text))) ∧
    sumValues (filterPosteriors (normalizePosteriors (boostedPosteriors m symptoms text))) =
      1 - sumValues ((normalizePosteriors (boostedPosteriors m symptoms text)).filter
            (fun p => p.2 < minProbabilityThreshold)) ∧
    (((normalizePosteriors (boostedPosteriors m symptoms text)).filter
        (fun p => p.2 < minProbabilityThreshold)) = [] →
      sumValues (filterPosteriors (normalizePosteriors (boostedPosteriors m symptoms text))) = 1) := by
  have h1 : sumValues (normalizePosteriors (boostedPosteriors m symptoms text)) = 1 := by
    unfold normalizePosteriors
    rw [if_pos hpos, sumValues_map_div, div_self (ne_of_gt hpos)]
  have h3 := sumValues_threshold_split (normalizePosteriors (boostedPosteriors m symptoms text))
  rw [h1] at h3
  refine ⟨h1, ?_, by linarith, ?_⟩
  · unfold computeDiagnosis
    rw [if_neg (by simp [hs])]
  · intro hdrop
    rw [hdrop] at h3
    simpa [sumValues] using h3

theorem C5_posterior_sum_witness :
    ((["s"] : List String).isEmpty = false) ∧
    0 < sumValues (boostedPosteriors ⟨[], [("A", 1)], []⟩ ["s"] "") ∧
    (sumValues (normalizePosteriors (boostedPosteriors ⟨[], [("A", 1)], []⟩ ["s"] "")) = 1 ∧
     computeDiagnosis ⟨[], [("A", 1)], []⟩ ["s"] "" =
       some (filterPosteriors (normalizePosteriors (boostedPosteriors ⟨[], [("A", 1)], []⟩ ["s"] ""))) ∧
     sumValues (filterPosteriors (normalizePosteriors (boostedPosteriors ⟨[], [("A", 1)], []⟩ ["s"] ""))) =
       1 - sumValues ((normalizePosteriors (boostedPosteriors ⟨[], [("A", 1)], []⟩ ["s"] "")).filter
             (fun p => p.2 < minProbabilityThreshold)) ∧
     (((normalizePosteriors (boostedPosteriors ⟨[], [("A", 1)], []⟩ ["s"] "")).filter
         (fun p => p.2 < minProbabilityThreshold)) = [] →
       sumValues (filterPosteriors (normalizePosteriors (boostedPosteriors ⟨[], [("A", 1)], []⟩ ["s"] ""))) = 1)) :=
  ⟨by decide,
   by norm_num [boostedPosteriors, basePosteriors, sumValues, lookup2, assocFind, assocFindD],
   C5_posterior_sum ⟨[], [("A", 1)], []⟩ ["s"] "" (by decide)
     (by norm_num [boostedPosteriors, basePosteriors, sumValues, lookup2, assocFind, assocFindD])⟩

/-- C6 counterexample.  `calculate_confidence` rounds the confidence to four
decimal places before returning it (`round(confidence, 4)`), which the
claim omits: for the single-disease posterior `{A: 1/3}` with five
symptoms the claimed value is `11/15 = 0.7333...`, while the function
returns `0.7333` exactly. -/
theorem C6_rounding_counterexample :
    (calculateConfidence [("A", 1/3)] 5).1 = 7333/10000 ∧
    ¬((7333/10000 : ℚ) =
        min 1 ((2/5) * (1/3) + 3/10 + (3/10) * min ((5 : ℚ)/5) 1)) := by
  constructor
  · norm_num [calculateConfidence, sortDesc, List.insertionSort, pyRoundTo, pyRound,
      minSymptomsForConfidence, symptomPenaltyFactor]
  · intro h
    rw [show min ((5:ℚ)/5) 1 = 1 by norm_num] at h
    rw [show (2/5 : ℚ) * (1/3) + 3/10 + (3/10) * 1 = 11/15 by norm_num] at h
    rw [show min (1 : ℚ) (11/15) = 11/15 from min_eq_right (by norm_num)] at h
    norm_num at h

theorem conf_value_comm (t g mq : ℚ) (p : Prop) [Decidable p] :
    (if p then min (t * (2/5) + g + mq * (3/10)) 1 * (3/4)
     else min (t * (2/5) + g + mq * (3/10)) 1) =
    (if p then (3/4) * min ((2/5) * t + g + (3/10) * mq) 1
     else min ((2/5) * t + g + (3/10) * mq) 1) := by
  have h : t * (2/5) + g + mq * (3/10) = (2/5) * t + g + (3/10) * mq := by ring
  rw [h]
  split_ifs
  · rw [mul_comm]
  · rfl

/-- C6 (amended).  For a non-empty posterior the confidence is
`min(1, 0.4*top + gap_factor + 0.3*min(n/5, 1))` with the claimed gap
factor, multiplied by `0.75` when `n < 3` — and then ROUNDED to four
decimal places (Python `round(confidence, 4)`, half-to-even), which is
the returned score; the level thresholds `0.75/0.55/0.35` are compared
with `≥` (ties to the higher tier) against the unrounded value. -/
theorem C6_calculate_confidence (posteriors : List (String × ℚ)) (n : ℕ)
    (hne : posteriors ≠ []) :
    calculateConfidence posteriors n =
      (let sorted := sortDesc (posteriors.map Prod.snd)
       let top := sorted.headD 0
       let gapFactor :=
         match sorted with
         | _ :: second :: _ => min ((top - second) / (3/10)) 1 * (3/10)
         | _ => (3/10)
       let conf :=
         if n < 3 then (3/4) * min ((2/5) * top + gapFactor + (3/10) * min ((n : ℚ)/5) 1) 1
         else min ((2/5) * top + gapFactor + (3/10) * min ((n : ℚ)/5) 1) 1
       (pyRoundTo 4 conf,
        if conf ≥ 3/4 then "HIGH"
        else if conf ≥ 11/20 then "MODERATE"
        else if conf ≥ 7/20 then "LOW"
        else "VERY LOW")) := by
  unfold calculateConfidence
  rw [if_neg (by simp [hne])]
  simp only [minSymptomsForConfidence, symptomPenaltyFactor]
  rw [conf_value_comm]

theorem C6_calculate_confidence_witness :
    ([("A", (1:ℚ)/2), ("B", 1/4)] ≠ []) ∧
    calculateConfidence [("A", 1/2), ("B", 1/4)] 4 = (69/100, "MODERATE") :=
  ⟨by decide,
   (C6_calculate_confidence [("A", 1/2), ("B", 1/4)] 4 (by decide)).trans
     (by norm_num [sortDesc, List.insertionSort, List.orderedInsert, pyRoundTo, pyRound])⟩

theorem pyRound_le_floor_add_one (q : ℚ) : pyRound q ≤ ⌊q⌋ + 1 := by
  unfold pyRound
  dsimp only
  split_ifs <;> omega

theorem floor_le_pyRound (q : ℚ) : ⌊q⌋ ≤ pyRound q := by
  unfold pyRound
  dsimp only
  split_ifs <;> omega

theorem pyRound_mono {x y : ℚ} (h : x ≤ y) : pyRound x ≤ pyRound y := by
  have hf : ⌊x⌋ ≤ ⌊y⌋ := Int.floor_le_floor h
  by_cases hxy : ⌊x⌋ = ⌊y⌋
  · have hfr : x - (⌊x⌋ : ℚ) ≤ y - (⌊y⌋ : ℚ) := by
      rw [hxy]
      linarith
    unfold pyRound
    dsimp only
    rw [hxy]
    split_ifs <;> first | omega | linarith
  · have h1 : ⌊x⌋ + 1 ≤ ⌊y⌋ := by omega
    have h2 := pyRound_le_floor_add_one x
    have h3 := floor_le_pyRound y
    omega

theorem pyRoundTo_mono (k : ℕ) {x y : ℚ} (h : x ≤ y) :
    pyRoundTo k x ≤ pyRoundTo k y := by
  unfold pyRoundTo
  have hp : (0 : ℚ) < 10 ^ k := by positivity
  apply (div_le_div_iff_of_pos_right hp).mpr
  exact_mod_cast pyRound_mono (mul_le_mul_of_nonneg_right h (le_of_lt hp))

theorem sortDesc_perm (l : List ℚ) : List.Perm (sortDesc l) l :=
  List.perm_insertionSort _ l

theorem sortDesc_sorted (l : List ℚ) :
    List.Sorted (fun a b : ℚ => b ≤ a) (sortDesc l) :=
  List.sorted_insertionSort _ l

theorem orderedInsert_max (t : ℚ) (l : List ℚ) (h : ∀ x ∈ l, x ≤ t) :
    l.orderedInsert (fun a b => b ≤ a) t = t :: l := by
  cases l with
  | nil => rfl
  | cons b l =>
    rw [List.orderedInsert, if_pos (h b (List.mem_cons_self b l))]

theorem sortDesc_cons_max (t : ℚ) (l : List ℚ) (h : ∀ x ∈ l, x ≤ t) :
    sortDesc (t :: l) = t :: sortDesc l := by
  unfold sortDesc
  rw [List.insertionSort]
  exact orderedInsert_max t _ (fun x hx => h x ((List.perm_insertionSort _ l).subset hx))

/-- C8.  Confidence monotonicity: with everything else fixed, raising the
top posterior never lowers the returned (rounded) confidence, and raising
the asserted-symptom count never lowers it either — including across the
penalty boundary at three symptoms, because the `0.75` penalty only
shrinks a non-negative value that the larger count retains. -/
theorem C8_confidence_monotonic :
    (∀ (d : String) (rest : List (String × ℚ)) (t t' : ℚ) (n : ℕ),
       t ≤ t' → (∀ p ∈ rest, p.2 ≤ t) →
       (calculateConfidence ((d, t) :: rest) n).1 ≤
         (calculateConfidence ((d, t') :: rest) n).1) ∧
    (∀ (posteriors : List (String × ℚ)) (n n' : ℕ),
       (∀ p ∈ posteriors, 0 ≤ p.2) → n ≤ n' →
       (calculateConfidence posteriors n).1 ≤ (calculateConfidence posteriors n').1) := by
  constructor
  · intro d rest t t' n htt hmax
    have hm : ∀ x ∈ rest.map Prod.snd, x ≤ t := by
      intro x hx
      rcases List.mem_map.mp hx with ⟨p, hp, rfl⟩
      exact hmax p hp
    have hm' : ∀ x ∈ rest.map Prod.snd, x ≤ t' := fun x hx => le_trans (hm x hx) htt
    unfold calculateConfidence
    simp only [minSymptomsForConfidence, symptomPenaltyFactor]
    rw [if_neg (show ¬((d, t) :: rest).isEmpty = true by simp),
        if_neg (show ¬((d, t') :: rest).isEmpty = true by simp)]
    simp only [List.map_cons]
    rw [sortDesc_cons_max t _ hm, sortDesc_cons_max t' _ hm']
    simp only [List.headD_cons]
    cases hS : sortDesc (rest.map Prod.snd) with
    | nil =>
      dsimp only
      apply pyRoundTo_mono
      have hbase : min (t * (2/5) + 3/10 + min ((n : ℚ)/5) 1 * (3/10)) 1 ≤
          min (t' * (2/5) + 3/10 + min ((n : ℚ)/5) 1 * (3/10)) 1 :=
        min_le_min (by linarith) le_rfl
      split_ifs
      · exact mul_le_mul_of_nonneg_right hbase (by norm_num : (0:ℚ) ≤ 3/4)
      · exact hbase
    | cons s tl =>
      dsimp only
      apply pyRoundTo_mono
      have hgap : min ((t - s) / (3/10)) 1 * (3/10) ≤
          min ((t' - s) / (3/10)) 1 * (3/10) := by
        apply mul_le_mul_of_nonneg_right _ (by norm_num)
        exact min_le_min ((div_le_div_iff_of_pos_right (by norm_num)).mpr (by linarith)) le_rfl
      have hbase : min (t * (2/5) + min ((t - s) / (3/10)) 1 * (3/10) +
            min ((n : ℚ)/5) 1 * (3/10)) 1 ≤
          min (t' * (2/5) + min ((t' - s) / (3/10)) 1 * (3/10) +
            min ((n : ℚ)/5) 1 * (3/10)) 1 :=
        min_le_min (by linarith) le_rfl
      split_ifs
      · exact mul_le_mul_of_nonneg_right hbase (by norm_num : (0:ℚ) ≤ 3/4)
      · exact hbase
  · intro posteriors n n' hpos hnn
    cases posteriors with
    | nil =>
      simp [calculateConfidence]
    | cons a rest =>
      unfold calculateConfidence
      simp only [minSymptomsForConfidence, symptomPenaltyFactor]
      rw [if_neg (show ¬(a :: rest).isEmpty = true by simp)]
      have hperm := sortDesc_perm ((a :: rest).map Prod.snd)
      have hsort := sortDesc_sorted ((a :: rest).map Prod.snd)
      have hsf : min ((n : ℚ)/5) 1 * (3/10) ≤ min ((n' : ℚ)/5) 1 * (3/10) := by
        apply mul_le_mul_of_nonneg_right _ (by norm_num)
        apply min_le_min _ le_rfl
        apply (div_le_div_iff_of_pos_right (by norm_num)).mpr
        exact_mod_cast hnn
      have hsf0 : 0 ≤ min ((n : ℚ)/5) 1 * (3/10) := by
        apply mul_nonneg _ (by norm_num)
        exact le_min (by positivity) (by norm_num)
      cases hS : sortDesc ((a :: rest).map Prod.snd) with
      | nil =>
        dsimp only
        apply pyRoundTo_mono
        have hb0 : (0 : ℚ) ≤ min ((0:ℚ) * (2/5) + 3/10 + min ((n : ℚ)/5) 1 * (3/10)) 1 :=
          le_min (by linarith) (by norm_num)
        have hbase : min ((0:ℚ) * (2/5) + 3/10 + min ((n : ℚ)/5) 1 * (3/10)) 1 ≤
            min ((0:ℚ) * (2/5) + 3/10 + min ((n' : ℚ)/5) 1 * (3/10)) 1 :=
          min_le_min (by linarith) le_rfl
        split_ifs with h1 h2 h2
        · exact mul_le_mul_of_nonneg_right hbase (by norm_num : (0:ℚ) ≤ 3/4)
        · exact le_trans (mul_le_of_le_one_right hb0 (by norm_num : (3:ℚ)/4 ≤ 1)) hbase
        · omega
        · exact hbase
      | cons x tl =>
        have hx0 : 0 ≤ x := by
          have hxmem : x ∈ (a :: rest).map Prod.snd := by
            apply hperm.subset
            rw [hS]
            exact List.mem_cons_self x tl
          rcases List.mem_map.mp hxmem with ⟨p, hp, rfl⟩
          exact hpos p hp
        cases tl with
        | nil =>
          dsimp only
          apply pyRoundTo_mono
          have hb0 : (0 : ℚ) ≤ min (x * (2/5) + 3/10 + min ((n : ℚ)/5) 1 * (3/10)) 1 :=
            le_min (by nlinarith) (by norm_num)
          have hbase : min (x * (2/5) + 3/10 + min ((n : ℚ)/5) 1 * (3/10)) 1 ≤
              min (x * (2/5) + 3/10 + min ((n' : ℚ)/5) 1 * (3/10)) 1 :=
            min_le_min (by linarith) le_rfl
          split_ifs with h1 h2 h2
          · exact mul_le_mul_of_nonneg_right hbase (by norm_num : (0:ℚ) ≤ 3/4)
          · exact le_trans (mul_le_of_le_one_right hb0 (by norm_num : (3:ℚ)/4 ≤ 1)) hbase
          · omega
          · exact hbase
        | cons s tl' =>
          have hsx : s ≤ x := by
            rw [hS] at hsort
            exact (List.sorted_cons.mp hsort).1 s (List.mem_cons_self s tl')
          have hgap0 : (0 : ℚ) ≤ min ((x - s) / (3/10)) 1 * (3/10) := by
            apply mul_nonneg _ (by norm_num)
            exact le_min (div_nonneg (by linarith) (by norm_num)) (by norm_num)
          dsimp only
          apply pyRoundTo_mono
          have hb0 : (0 : ℚ) ≤
              min (x * (2/5) + min ((x - s) / (3/10)) 1 * (3/10) +
                min ((n : ℚ)/5) 1 * (3/10)) 1 :=
            le_min (by nlinarith) (by norm_num)
          have hbase :
              min (x * (2/5) + min ((x - s) / (3/10)) 1 * (3/10) +
                min ((n : ℚ)/5) 1 * (3/10)) 1 ≤
              min (x * (2/5) + min ((x - s) / (3/10)) 1 * (3/10) +
                min ((n' : ℚ)/5) 1 * (3/10)) 1 :=
            min_le_min (by linarith) le_rfl
          split_ifs with h1 h2 h2
          · exact mul_le_mul_of_nonneg_right hbase (by norm_num : (0:ℚ) ≤ 3/4)
          · exact le_trans (mul_le_of_le_one_right hb0 (by norm_num : (3:ℚ)/4 ≤ 1)) hbase
          · omega
          · exact hbase

theorem C8_confidence_monotonic_witness :
    ((1 : ℚ)/4 ≤ 1/2) ∧
    (∀ p ∈ [("B", (1 : ℚ)/4)], p.2 ≤ (1 : ℚ)/4) ∧
    (calculateConfidence [("A", 1/4), ("B", 1/4)] 3).1 ≤
      (calculateConfidence [("A", 1/2), ("B", 1/4)] 3).1 ∧
    (∀ p ∈ [("A", (1 : ℚ)/2)], 0 ≤ p.2) ∧
    (1 : ℕ) ≤ 4 ∧
    (calculateConfidence [("A", (1 : ℚ)/2)] 1).1 ≤
      (calculateConfidence [("A", (1 : ℚ)/2)] 4).1 := by
  refine ⟨by norm_num, ?_, ?_, ?_, by norm_num, ?_⟩
  · intro p hp
    rcases List.mem_cons.mp hp with rfl | h
    · norm_num
    · cases h
  · refine C8_confidence_monotonic.1 "A" [("B", 1/4)] (1/4) (1/2) 3 (by norm_num) ?_
    intro p hp
    rcases List.mem_cons.mp hp with rfl | h
    · norm_num
    · cases h
  · intro p hp
    rcases List.mem_cons.mp hp with rfl | h
    · norm_num
    · cases h
  · refine C8_confidence_monotonic.2 [("A", (1 : ℚ)/2)] 1 4 ?_ (by norm_num)
    intro p hp
    rcases List.mem_cons.mp hp with rfl | h
    · norm_num
    · cases h

/-- C2.  The claim demands byte-identical `DiagnosticResult`s, every field
included, for two calls on the same query and model.  But the result's
`timestamp` field is filled from `datetime.utcnow()` at construction (and
`processing_time_ms` from the measured elapsed time), so two calls at
different wall-clock instants differ: here the same query, model, catalog
and flag produce unequal results under two clock readings. -/
theorem C2_timestamp_counterexample :
    diagnose ⟨[], [], []⟩ [] (some "") true "2025-01-01T00:00:00.000000" 0 ≠
      diagnose ⟨[], [], []⟩ [] (some "") true "2025-01-01T00:00:00.000817" 0 := by
  intro h
  have h2 := congrArg DiagnosticResult.timestamp h
  rw [show (diagnose ⟨[], [], []⟩ [] (some "") true "2025-01-01T00:00:00.000000" 0).timestamp =
        "2025-01-01T00:00:00.000000" from rfl,
      show (diagnose ⟨[], [], []⟩ [] (some "") true "2025-01-01T00:00:00.000817" 0).timestamp =
        "2025-01-01T00:00:00.000817" from rfl] at h2
  exact absurd h2 (by decide)

/-- C2 (amended).  `diagnose` is a pure function of the query, the
`return_full` flag, the model and the catalog everywhere EXCEPT the two
wall-clock fields: erasing `timestamp` and `processing_time_ms`, two calls
with the same query against an unchanged model and catalog produce
identical results, whatever the two clock readings were. -/
theorem C2_diagnose_deterministic (m : DiseaseModel) (lookup : List (String × String))
    (query : Option String) (returnFull : Bool) (t1 t2 : String) (e1 e2 : ℚ) :
    stripTime (diagnose m lookup query returnFull t1 e1) =
      stripTime (diagnose m lookup query returnFull t2 e2) := by
  unfold diagnose
  cases query with
  | none => rfl
  | some s =>
    dsimp only
    by_cases hs : s = ""
    · rw [if_pos hs, if_pos hs]
      rfl
    · rw [if_neg hs, if_neg hs]
      cases hx : extractSymptoms lookup s with
      | none => rfl
      | some base =>
        dsimp only
        by_cases hsy : (enhanceSymptomExtraction s base).1.isEmpty = true
        · rw [if_pos hsy, if_pos hsy]
          rfl
        · rw [if_neg hsy, if_neg hsy]
          cases hc : computeDiagnosis m (enhanceSymptomExtraction s base).1 s with
          | none => rfl
          | some posteriors =>
            dsimp only
            by_cases hp : posteriors.isEmpty = true
            · rw [if_pos hp, if_pos hp]
              rfl
            · rw [if_neg hp, if_neg hp]
              rfl

end CDSS
